import Mathlib

/-!
# libmediasoupclient: Transport, Producer and Consumer lifecycle

A shallow embedding of `src/src/Transport.cpp`, `src/include/Consumer.hpp`,
`src/include/Device.hpp` and the capability conversion of
`src/src/PeerConnection.cpp`, and theorems about it.

Modelling conventions.

* `nlohmann::json` values are the inductive type `Json`.  Only the operations
  the embedded code calls are defined (`is_array`, `size`, `find`,
  `operator[]`, `get<std::string>`).  Object members are kept as an association
  list; nlohmann keeps them sorted by key, which none of these operations
  observes.  All numbers are integers here (`is_number` is the only thing the
  code asks of a number).
* C++ exceptions are values of `Error`; a throwing function returns
  `Except Error α`.  `mediasoupclient::Exception` is kept apart from every
  other exception type because `catch (Exception&)` only catches the former.
* A `webrtc::MediaStreamTrackInterface*` is an `Option Nat` (`none` is
  `nullptr`); the track objects live in `Outside.tracks`.
* The handler (`SendHandler`/`RecvHandler`), the signaling listener and
  `ortc::canReceive` are collaborators whose code is outside this development.
  They are functions over an arbitrary collaborator state `W`, returning a result
  together with the next state (also when they throw).  Every invocation is
  appended to the log `Outside.calls`, so that "is never invoked" is a
  statement about that log.
-/

namespace mediasoupclient

/-! ## Exceptions -/

/-- C++ exceptions reaching the embedded code. -/
inductive Error where
  /-- The library's own `mediasoupclient::Exception(message)`. -/
  | exception (message : String)
  /-- Any other exception type, for instance `nlohmann::json::type_error`. -/
  | other (what : String)
  deriving DecidableEq, Repr

/-- The `type_error.302` of nlohmann: `get<std::string>()` on a non-string. -/
def typeError302 : Error := Error.other "json.exception.type_error.302"

/-- The `type_error.305` of nlohmann: `operator[]` with a string key on a value
that is neither an object nor null. -/
def typeError305 : Error := Error.other "json.exception.type_error.305"

/-! ## JSON -/

/-- The `nlohmann::json` value tree. -/
inductive Json where
  | null
  | bool (b : Bool)
  | number (n : Int)
  | string (s : String)
  | array (elements : List Json)
  | object (members : List (String × Json))

namespace Json

/-- Member lookup in an object's association list. -/
def lookup (key : String) : List (String × Json) → Option Json
  | [] => none
  | (k, v) :: rest => if k = key then some v else lookup key rest

def is_array : Json → Bool
  | array _ => true
  | _ => false

def is_object : Json → Bool
  | object _ => true
  | _ => false

def is_number : Json → Bool
  | number _ => true
  | _ => false

def is_string : Json → Bool
  | string _ => true
  | _ => false

/-- The `size()` of nlohmann: 0 for null, the element or member count for arrays and
objects, 1 for every scalar. -/
def size : Json → Nat
  | null => 0
  | array xs => xs.length
  | object ms => ms.length
  | _ => 1

/-- The const `find(key)`: `none` stands for `end()`, which is what every
non-object returns. -/
def find (j : Json) (key : String) : Option Json :=
  match j with
  | object ms => lookup key ms
  | _ => none

/-- The elements `begin() .. end()` walks over, for an array. -/
def elements : Json → List Json
  | array xs => xs
  | _ => []

/-- The value read through the non-const `operator[](key)`: a missing member
(and a null document) yields null, a value that is neither object nor null
throws `type_error.305`. -/
def atKey (j : Json) (key : String) : Except Error Json :=
  match j with
  | null => .ok null
  | object ms => .ok ((lookup key ms).getD null)
  | _ => .error typeError305

/-- The conversion `get<std::string>()`. -/
def getString : Json → Except Error String
  | string s => .ok s
  | _ => .error typeError302

/-- The expression `j[key].get<std::string>()` on a non-const `j`. -/
def stringAt (j : Json) (key : String) : Except Error String :=
  match j.atKey key with
  | .ok v => v.getString
  | .error e => .error e

end Json

/-! ## Tracks, collaborators and the call log -/

/-- The `webrtc::MediaStreamTrackInterface::TrackState`. -/
inductive TrackState where
  | kLive
  | kEnded
  deriving DecidableEq, Repr

/-- What the embedded code reads from a native track object. -/
structure MediaStreamTrack where
  kind : String
  state : TrackState
  enabled : Bool

/-- A `webrtc::MediaStreamTrackInterface*`; `none` is `nullptr`. -/
abbrev TrackPtr := Option Nat

/-- One invocation of a collaborator, with its arguments. -/
inductive Call where
  | Send (track : TrackPtr) (simulcast : Json)
  | StopSending (track : TrackPtr)
  | OnProduce (producerLocalParameters : Json)
  | canReceive (rtpParameters extendedRtpCapabilities : Json)
  | Receive (id kind : String) (rtpParameters : Json)
  | StopReceiving (id : String)
  | OnConnect (transportLocalParameters : Json)
  | GetReceiverStats (id : String)

/-- Everything outside the transport object: the native track objects, the
state of the collaborators and the log of the calls made to them. -/
structure Outside (W : Type) where
  tracks : Nat → MediaStreamTrack
  world : W
  calls : List Call

/-- The collaborators of `SendTransport::Produce`: `handler->Send`,
`handler->StopSending` and `listener->OnProduce(..).get()`. -/
structure SendCollaborators (W : Type) where
  Send : W → TrackPtr → Json → Except Error Json × W
  StopSending : W → TrackPtr → Except Error Unit × W
  OnProduce : W → Json → Except Error Json × W

/-! ## Registries (`std::map<std::string, T*>`) -/

/-- A `std::map` keyed by strings, as an association list. -/
structure Registry (α : Type) where
  entries : List (String × α)

namespace Registry

variable {α : Type}

def empty : Registry α := ⟨[]⟩

def findIn (key : String) : List (String × α) → Option α
  | [] => none
  | (k, v) :: rest => if k = key then some v else findIn key rest

/-- The lookup `find(key)`; `none` stands for `end()`. -/
def find (m : Registry α) (key : String) : Option α := findIn key m.entries

def assignIn (key : String) (v : α) : List (String × α) → List (String × α)
  | [] => [(key, v)]
  | (k, w) :: rest => if k = key then (key, v) :: rest else (k, w) :: assignIn key v rest

/-- The assignment `m[key] = v`: overwrites the entry of `key` or adds one. -/
def assign (m : Registry α) (key : String) (v : α) : Registry α :=
  ⟨assignIn key v m.entries⟩

/-- The removal `erase(key)`. -/
def erase (m : Registry α) (key : String) : Registry α :=
  ⟨m.entries.filter (fun e => decide (e.1 ≠ key))⟩

def size (m : Registry α) : Nat := m.entries.length

end Registry

/-! ## Transport objects -/

/-- Modelled from the spec: `Producer.hpp` is not among the sources; a Producer
is the record of the arguments `SendTransport::Produce` gives its constructor
(the back-pointer to the transport left out), which the spec lists as the
Producer's id, bound track, maximum spatial layer, negotiated send parameters
and app metadata. -/
structure Producer where
  publicListener : Nat
  id : String
  track : TrackPtr
  rtpParameters : Json
  maxSpatialLayer : Fin 256
  appData : Json

/-- The fields of the `Transport` base class that the embedded code reads. -/
structure Transport where
  id : String
  closed : Bool
  extendedRtpCapabilities : Json
  appData : Json

/-- The `SendTransport` object. -/
structure SendTransport extends Transport where
  canProduceByKind : List (String × Bool)
  producers : Registry Producer

/-- The lambda of the `std::for_each` in `SendTransport::Produce`, run over the
remaining entries: the first entry without a numeric `maxBitrate` throws.
`push_back` with the initializer list `\x7b "maxBitrate", *it \x7d` on an array
appends the two-element array. -/
def normalizeSimulcast : List Json → List Json → Except Error (List Json)
  | [], normalizedSimulcast => .ok normalizedSimulcast
  | entry :: rest, normalizedSimulcast =>
    match entry.find "maxBitrate" with
    | none => .error (.exception "Invalid simulcast entry")
    | some it =>
      if !it.is_number then .error (.exception "Invalid simulcast entry")
      else normalizeSimulcast rest
        (normalizedSimulcast ++ [Json.array [Json.string "maxBitrate", it]])

/-- Log a call and install the collaborator state it left behind. -/
def Outside.after {W : Type} (out : Outside W) (c : Call) (w : W) : Outside W :=
  { out with world := w, calls := out.calls ++ [c] }

/-- The argument checks of `SendTransport::Produce` (Transport.cpp, lines 67-97), which
only read the transport and the track and throw: the six guards and the
validation loop over the simulcast entries.  Returns `track->kind()` when
every check passes. -/
def SendTransport.produceChecks (self : SendTransport) (tracks : Nat → MediaStreamTrack)
    (track : TrackPtr) (simulcast : Json) (maxSpatialLayer : Fin 256) :
    Except Error String :=
  if self.closed then .error (.exception "Invalid state")
  else match track with
  | none => .error (.exception "Track cannot be null")
  | some t =>
    if (tracks t).state = TrackState.kEnded then .error (.exception "Track ended")
    else if !simulcast.is_array then .error (.exception "Invalid simulcast")
    else if (tracks t).kind ≠ "video" ∧ simulcast.size > 0 then
      .error (.exception "Cannot set simulcast on audio track")
    else if (tracks t).kind ≠ "video" ∧ maxSpatialLayer > 0 then
      .error (.exception "Cannot set simulcast on audio track")
    else if (tracks t).kind = "video" ∧ simulcast.size > 1 then
      match normalizeSimulcast simulcast.elements [] with
      | .error e => .error e
      | .ok _ => .ok (tracks t).kind
    else .ok (tracks t).kind

/-- The document `producerLocalParameters` of `SendTransport::Produce`. -/
def producerLocalParameters (kind : String) (rtpParameters appData : Json) : Json :=
  Json.object [("kind", Json.string kind), ("rtpParameters", rtpParameters),
    ("appData", appData)]

/-- The method `SendTransport::Produce` (Transport.cpp, lines 58-135).  Returns the
thrown exception or the new Producer, with the transport and the outside world
as the call leaves them. -/
def SendTransport.Produce {W : Type} (env : SendCollaborators W)
    (self : SendTransport) (out : Outside W)
    (producerPublicListener : Nat) (track : TrackPtr) (simulcast : Json)
    (maxSpatialLayer : Fin 256) (appData : Json) :
    Except Error Producer × SendTransport × Outside W :=
  match self.produceChecks out.tracks track simulcast maxSpatialLayer with
  | .error e => (.error e, self, out)
  | .ok kind =>
    -- rtpParameters = this->handler->Send(track, simulcast);
    let sent := env.Send out.world track simulcast
    let out1 := out.after (Call.Send track simulcast) sent.2
    match sent.1 with
    | .error e => (.error e, self, out1)
    | .ok rtpParameters =>
      let answered := env.OnProduce out1.world
        (producerLocalParameters kind rtpParameters appData)
      let out2 := out1.after
        (Call.OnProduce (producerLocalParameters kind rtpParameters appData)) answered.2
      match answered.1 with
      | .error (.exception message) =>
        -- catch (Exception& error): StopSending(track), then rethrow.
        let stopped := env.StopSending out2.world track
        let out3 := out2.after (Call.StopSending track) stopped.2
        match stopped.1 with
        | .error e => (.error e, self, out3)
        | .ok _ => (.error (.exception message), self, out3)
      | .error e => (.error e, self, out2)
      | .ok producerRemoteParameters =>
        match producerRemoteParameters.stringAt "id" with
        | .error e => (.error e, self, out2)
        | .ok id =>
          let producer : Producer :=
            { publicListener := producerPublicListener, id := id, track := track,
              rtpParameters := rtpParameters, maxSpatialLayer := maxSpatialLayer,
              appData := appData }
          (.ok producer,
           { self with producers := self.producers.assign producer.id producer },
           out2)

/-! ## The receiving side -/

/-- The collaborators of `RecvTransport::Consume` and `RecvTransport::OnClose`:
`ortc::canReceive`, `handler->Receive` and `handler->StopReceiving`. -/
structure RecvCollaborators (W : Type) where
  canReceive : Json → Json → Except Error Bool
  Receive : W → String → String → Json → Except Error TrackPtr × W
  StopReceiving : W → String → Except Error Unit × W

/-- The data members of `Consumer` (Consumer.hpp, lines 64-93), the listener
back-pointer left out. -/
structure Consumer where
  publicListener : Nat
  id : String
  producerId : String
  closed : Bool
  paused : Bool
  track : TrackPtr
  rtpParameters : Json
  maxSpatialLayer : String
  appData : Json

/-- Modelled from the spec: the body of the `Consumer` constructor
(Consumer.cpp) is not among the sources.  It stores its arguments (the spec's
Consumer is its id, producerId, bound track, negotiated receive parameters and
app metadata); the remaining members keep their in-class initialisers of
Consumer.hpp (`closed` and `paused` false, `maxSpatialLayer` empty). -/
def Consumer.create (publicListener : Nat) (id producerId : String) (track : TrackPtr)
    (rtpParameters appData : Json) : Consumer :=
  { publicListener := publicListener, id := id, producerId := producerId,
    closed := false, paused := false, track := track,
    rtpParameters := rtpParameters, maxSpatialLayer := "", appData := appData }

/-- The `RecvTransport` object. -/
structure RecvTransport extends Transport where
  consumers : Registry Consumer

/-- The method `RecvTransport::Consume` (Transport.cpp, lines 208-252).  The local copy
`consumerParameters` is only read through `operator[]`, which yields null for
a missing member.  The three arguments of `handler->Receive` are evaluated
before the call; whichever conversion throws first, the exception is the same
`type_error.302`. -/
def RecvTransport.Consume {W : Type} (env : RecvCollaborators W)
    (self : RecvTransport) (out : Outside W)
    (consumerPublicListener : Nat) (consumerRemoteParameters : Json) (appData : Json) :
    Except Error Consumer × RecvTransport × Outside W :=
  if self.closed then (.error (.exception "Invalid state"), self, out)
  else if !consumerRemoteParameters.is_object then
    (.error (.exception "Missing consumerRemoteParameters"), self, out)
  else if (consumerRemoteParameters.find "id").isNone then
    (.error (.exception "Missing consumerRemoteParameters[\"id\"]"), self, out)
  else if (consumerRemoteParameters.find "producerId").isNone then
    (.error (.exception "Missing consumerRemoteParameters[\"producerId\"]"), self, out)
  else
    match consumerRemoteParameters.atKey "rtpParameters" with
    | .error e => (.error e, self, out)
    | .ok rtpParameters =>
      -- auto canConsume = ortc::canReceive(.., this->extendedRtpCapabilities);
      let out1 := out.after
        (Call.canReceive rtpParameters self.extendedRtpCapabilities) out.world
      match env.canReceive rtpParameters self.extendedRtpCapabilities with
      | .error e => (.error e, self, out1)
      | .ok false => (.error (.exception "cannot consume this Producer"), self, out1)
      | .ok true =>
        match consumerRemoteParameters.stringAt "id" with
        | .error e => (.error e, self, out1)
        | .ok id =>
          match consumerRemoteParameters.stringAt "kind" with
          | .error e => (.error e, self, out1)
          | .ok kind =>
            -- track = this->handler->Receive(id, kind, rtpParameters);
            let received := env.Receive out1.world id kind rtpParameters
            let out2 := out1.after (Call.Receive id kind rtpParameters) received.2
            match received.1 with
            | .error e => (.error e, self, out2)
            | .ok track =>
              match consumerRemoteParameters.stringAt "producerId" with
              | .error e => (.error e, self, out2)
              | .ok producerId =>
                let consumer := Consumer.create consumerPublicListener id producerId
                  track rtpParameters appData
                (.ok consumer,
                 { self with consumers := self.consumers.assign consumer.id consumer },
                 out2)

/-- The method `RecvTransport::OnClose` (Transport.cpp, lines 255-266). -/
def RecvTransport.OnClose {W : Type} (env : RecvCollaborators W)
    (self : RecvTransport) (out : Outside W) (consumer : Consumer) :
    Except Error Unit × RecvTransport × Outside W :=
  let self1 : RecvTransport := { self with consumers := self.consumers.erase consumer.id }
  if self.closed then (.ok (), self1, out)
  else
    let stopped := env.StopReceiving out.world consumer.id
    (stopped.1, self1, out.after (Call.StopReceiving consumer.id) stopped.2)

/-- Modelled from the spec: `RecvHandler` (Handler.cpp) is not among the
sources.  `RecvTransport::Consume` has no duplicate check of its own, so the
spec's "fails with DuplicateId if that id is already registered" is the
handler's doing (the test "transport.consume() with duplicated
consumerRtpParameters.id throws" repeats parameters that were accepted
before).  The handler state is the list
of ids that have native receiving state: `Receive` refuses an id in that list,
otherwise asks the engine (`native`) for a track handle and records the id on
success; `StopReceiving(id)` drops the id. -/
def specRecvHandler (canReceive : Json → Json → Except Error Bool)
    (native : String → String → Json → Except Error TrackPtr) :
    RecvCollaborators (List String) where
  canReceive := canReceive
  Receive := fun receiving id kind rtpParameters =>
    if id ∈ receiving then (.error (.exception "DuplicateId"), receiving)
    else match native id kind rtpParameters with
      | .error e => (.error e, receiving)
      | .ok track => (.ok track, id :: receiving)
  StopReceiving := fun receiving id =>
    (.ok (), receiving.filter (fun r => decide (r ≠ id)))

/-- The states a `RecvTransport` over the spec-modelled handler reaches from
its construction (open, no Consumer, no native receiving state) through
`Consume` calls and close notifications of Consumers. -/
inductive RecvReachable (env : RecvCollaborators (List String)) :
    RecvTransport → Outside (List String) → Prop where
  | init (base : Transport) (tracks : Nat → MediaStreamTrack) :
      base.closed = false →
      RecvReachable env { toTransport := base, consumers := Registry.empty }
        { tracks := tracks, world := [], calls := [] }
  | consume (self : RecvTransport) (out : Outside (List String))
      (publicListener : Nat) (consumerRemoteParameters appData : Json) :
      RecvReachable env self out →
      RecvReachable env
        (self.Consume env out publicListener consumerRemoteParameters appData).2.1
        (self.Consume env out publicListener consumerRemoteParameters appData).2.2
  | onClose (self : RecvTransport) (out : Outside (List String)) (consumer : Consumer) :
      RecvReachable env self out →
      RecvReachable env (self.OnClose env out consumer).2.1
        (self.OnClose env out consumer).2.2

/-! ## Connect handshake, close notifications and statistics -/

namespace Json

/-- Member assignment in an object's association list: the member of that key
is overwritten, or a new member is added. -/
def assignMember (key : String) (v : Json) : List (String × Json) → List (String × Json)
  | [] => [(key, v)]
  | (k, w) :: rest =>
    if k = key then (key, v) :: rest else (k, w) :: assignMember key v rest

/-- The assignment `j[key] = v` through the non-const `operator[](key)`: null
becomes an object, a value that is neither object nor null throws
`type_error.305`. -/
def setKey (j : Json) (key : String) (v : Json) : Except Error Json :=
  match j with
  | null => .ok (object [(key, v)])
  | object ms => .ok (object (assignMember key v ms))
  | _ => .error typeError305

end Json

/-- The method `Transport::OnConnect` (Transport.cpp, lines 138-148).  The argument is a
`json&`, so the document as the call leaves it is returned as well.
`listenerOnConnect` is `this->listener->OnConnect(..).get()`. -/
def Transport.OnConnect {W : Type} (listenerOnConnect : W → Json → Except Error Unit × W)
    (self : Transport) (out : Outside W) (transportLocalParameters : Json) :
    Except Error Unit × Json × Outside W :=
  if self.closed then (.error (.exception "Invalid state"), transportLocalParameters, out)
  else
    -- transportLocalParameters["id"] = this->id;
    match transportLocalParameters.setKey "id" (Json.string self.id) with
    | .error e => (.error e, transportLocalParameters, out)
    | .ok parameters =>
      let answered := listenerOnConnect out.world parameters
      (answered.1, parameters, out.after (Call.OnConnect parameters) answered.2)

/-- The method `SendTransport::OnClose` (Transport.cpp, lines 151-162). -/
def SendTransport.OnClose {W : Type} (env : SendCollaborators W)
    (self : SendTransport) (out : Outside W) (producer : Producer) :
    Except Error Unit × SendTransport × Outside W :=
  let self1 : SendTransport := { self with producers := self.producers.erase producer.id }
  if self.closed then (.ok (), self1, out)
  else
    let stopped := env.StopSending out.world producer.track
    (stopped.1, self1, out.after (Call.StopSending producer.track) stopped.2)

/-- The method `RecvTransport::OnGetStats` (Transport.cpp, lines 268-276).
`GetReceiverStats` is `this->handler->GetReceiverStats`. -/
def RecvTransport.OnGetStats {W : Type} (GetReceiverStats : W → String → Except Error Json × W)
    (self : RecvTransport) (out : Outside W) (consumer : Consumer) :
    Except Error Json × Outside W :=
  if self.closed then (.error (.exception "Invalid state"), out)
  else
    let answered := GetReceiverStats out.world consumer.id
    (answered.1, out.after (Call.GetReceiverStats consumer.id) answered.2)

/-- The method `Consumer::GetStats` (Consumer.hpp, lines 128-134).  `listenerOnGetStats` is
`this->listener->OnGetStats`, over whatever state `S` the listener works on. -/
def Consumer.GetStats {S : Type} (listenerOnGetStats : S → Consumer → Except Error Json × S)
    (self : Consumer) (s : S) : Except Error Json × S :=
  if self.closed then (.error (.exception "Invalid state"), s)
  else listenerOnGetStats s self

/-! ## Device -/

/-- The access `m[key]` of `std::map::operator[]`: the stored value, or a
value-initialised one that is inserted when the key is absent. -/
def Registry.index {α : Type} (m : Registry α) (key : String) (valueInit : α) :
    α × Registry α :=
  match m.find key with
  | some v => (v, m)
  | none => (valueInit, m.assign key valueInit)

/-- The data members of `Device` (Device.hpp, lines 39-51). -/
structure Device where
  loaded : Bool
  extendedRtpCapabilities : Json
  recvRtpCapabilities : Json
  canProduceByKind : Registry Bool

/-- The defaulted constructor `Device()` with the in-class initialisers. -/
def Device.new : Device :=
  { loaded := false, extendedRtpCapabilities := Json.null,
    recvRtpCapabilities := Json.null,
    canProduceByKind := ⟨[("audio", false), ("video", false)]⟩ }

/-- The method `Device::IsLoaded`. -/
def Device.IsLoaded (self : Device) : Bool := self.loaded

/-- The method `Device::GetRtpCapabilities` (Device.hpp, lines 75-81), a const method. -/
def Device.GetRtpCapabilities (self : Device) : Except Error Json :=
  if !self.loaded then .error (.exception "Not loaded")
  else .ok self.recvRtpCapabilities

/-- The method `Device::CanProduce` (Device.hpp, lines 87-96), not a const method: it reads the
map through `operator[]`. -/
def Device.CanProduce (self : Device) (kind : String) : Except Error Bool × Device :=
  if !self.loaded then (.error (.exception "Not loaded"), self)
  else if kind ≠ "audio" ∧ kind ≠ "video" then (.error (.exception "Invalid kind"), self)
  else
    (.ok (self.canProduceByKind.index kind false).1,
     { self with canProduceByKind := (self.canProduceByKind.index kind false).2 })

/-- Modelled from the spec: the negotiator (ortc.cpp) is not among the sources.
The codecs of a kind that survived negotiation are the entries of the extended
capability's `codecs` list whose `kind` is that kind (spec, Data Model: a
capability set is an ordered list of Codec descriptors, each with a kind). -/
def survivingCodecs (kind : String) (extendedRtpCapabilities : Json) : List Json :=
  (((extendedRtpCapabilities.find "codecs").getD Json.null).elements).filter
    (fun codec =>
      match codec.find "kind" with
      | some (Json.string k) => decide (k = kind)
      | _ => false)

/-- Modelled from the spec: `Device::Load` (Device.cpp) is not among the
sources.  Spec 4.2: `Load` fails with `AlreadyLoaded` if called twice; it runs
the Negotiator (`computeExtended`, which may reject the advertisement), stores
the resulting extended capability and sets producibility per kind to true iff
at least one codec survived for that kind; the loaded flag goes from false to
true.  `deriveRecv` derives the receivable capability set that
`GetRtpCapabilities` hands out. -/
def Device.Load (computeExtended : Json → Except Error Json) (deriveRecv : Json → Json)
    (self : Device) (routerRtpCapabilities : Json) : Except Error Unit × Device :=
  if self.loaded then (.error (.exception "AlreadyLoaded"), self)
  else
    match computeExtended routerRtpCapabilities with
    | .error e => (.error e, self)
    | .ok extended =>
      (.ok (),
       { loaded := true,
         extendedRtpCapabilities := extended,
         recvRtpCapabilities := deriveRecv extended,
         canProduceByKind :=
           (self.canProduceByKind.assign "audio"
              (!(survivingCodecs "audio" extended).isEmpty)).assign "video"
              (!(survivingCodecs "video" extended).isEmpty) })

/-- The states of a Device: constructed, then any sequence of `Load` and
`CanProduce` calls. -/
inductive DeviceReachable (computeExtended : Json → Except Error Json)
    (deriveRecv : Json → Json) : Device → Prop where
  | new : DeviceReachable computeExtended deriveRecv Device.new
  | load (self : Device) (routerRtpCapabilities : Json) :
      DeviceReachable computeExtended deriveRecv self →
      DeviceReachable computeExtended deriveRecv
        (self.Load computeExtended deriveRecv routerRtpCapabilities).2
  | canProduce (self : Device) (kind : String) :
      DeviceReachable computeExtended deriveRecv self →
      DeviceReachable computeExtended deriveRecv (self.CanProduce kind).2

/-! ## Consumer pause state -/

/-- The setter `track->set_enabled(enabled)` of the native track: the flag that
`enabled()` returns afterwards; every other track is as before. -/
def set_enabled (tracks : Nat → MediaStreamTrack) (t : Nat) (enabled : Bool) :
    Nat → MediaStreamTrack :=
  fun u => if u = t then { tracks u with enabled := enabled } else tracks u

/-- The method `Consumer::IsPaused` (Consumer.hpp, lines 141-144): `!this->track->enabled()`.
Dereferencing a null track is undefined behaviour, rendered as `none`. -/
def Consumer.IsPaused (self : Consumer) (tracks : Nat → MediaStreamTrack) : Option Bool :=
  match self.track with
  | none => none
  | some t => some (!(tracks t).enabled)

/-! ## Native capabilities to JSON (PeerConnection.cpp) -/

/-- The `type_error.308` of nlohmann: `push_back` on a value that is neither an
array nor null. -/
def typeError308 : Error := Error.other "json.exception.type_error.308"

/-- The `bad_optional_access` of `value()` on an empty optional. -/
def badOptionalAccess : Error := Error.other "bad_optional_access"

/-- The `cricket::MediaType`. -/
inductive MediaType where
  | MEDIA_TYPE_AUDIO
  | MEDIA_TYPE_VIDEO
  | MEDIA_TYPE_DATA
  deriving DecidableEq, Repr

/-- The `cricket::MediaTypeToString`. -/
def MediaTypeToString : MediaType → String
  | MediaType.MEDIA_TYPE_AUDIO => "audio"
  | MediaType.MEDIA_TYPE_VIDEO => "video"
  | MediaType.MEDIA_TYPE_DATA => "data"

/-- The `webrtc::RtcpFeedbackType`. -/
inductive RtcpFeedbackType where
  | CCM
  | NACK
  | REMB
  | TRANSPORT_CC
  deriving DecidableEq, Repr

/-- The `webrtc::RtcpFeedbackMessageType`. -/
inductive RtcpFeedbackMessageType where
  | GENERIC_NACK
  | PLI
  | FIR
  deriving DecidableEq, Repr

/-- The `webrtc::RtcpFeedback`: a type and an optional message type. -/
structure RtcpFeedback where
  type : RtcpFeedbackType
  message_type : Option RtcpFeedbackMessageType
  deriving DecidableEq, Repr

/-- The `webrtc::RtpCodecCapability`, the members the conversion reads. -/
structure RtpCodecCapability where
  name : String
  kind : MediaType
  clock_rate : Option Int
  preferred_payload_type : Option Int
  num_channels : Option Int
  parameters : List (String × String)
  rtcp_feedback : List RtcpFeedback

/-- The `webrtc::RtpHeaderExtensionCapability`. -/
structure RtpHeaderExtensionCapability where
  uri : String
  preferred_id : Option Int

/-- The `webrtc::RtpCapabilities`. -/
structure RtpCapabilities where
  codecs : List RtpCodecCapability
  header_extensions : List RtpHeaderExtensionCapability

/-- The method `RtpCodecCapability::mime_type()`. -/
def RtpCodecCapability.mime_type (c : RtpCodecCapability) : String :=
  MediaTypeToString c.kind ++ "/" ++ c.name

/-- The first `switch` of the feedback loop (PeerConnection.cpp, lines 57-78): the string
`type`, left empty for TRANSPORT_CC. -/
def rtcpFeedbackTypeString : RtcpFeedbackType → String
  | .CCM => "ccm"
  | .NACK => "nack"
  | .REMB => "goog-remb"
  | .TRANSPORT_CC => ""

/-- The second `switch` (PeerConnection.cpp, lines 85-104): the string `messageType`, left
empty without a message type and for GENERIC_NACK. -/
def rtcpFeedbackMessageTypeString : Option RtcpFeedbackMessageType → String
  | some .PLI => "pli"
  | some .FIR => "fir"
  | some .GENERIC_NACK => ""
  | none => ""

/-- One round of the feedback loop: `none` is the `continue` on an empty type,
otherwise the descriptor that is pushed, with its `parameter` member only for a
non-empty message type. -/
def rtcpFeedbackJson (nativeRtcpFeedback : RtcpFeedback) : Option Json :=
  if rtcpFeedbackTypeString nativeRtcpFeedback.type = "" then none
  else if rtcpFeedbackMessageTypeString nativeRtcpFeedback.message_type = "" then
    some (Json.object
      [("type", Json.string (rtcpFeedbackTypeString nativeRtcpFeedback.type))])
  else
    some (Json.object
      [("type", Json.string (rtcpFeedbackTypeString nativeRtcpFeedback.type)),
       ("parameter",
        Json.string (rtcpFeedbackMessageTypeString nativeRtcpFeedback.message_type))])

/-- The feedback loop over `nativeCodec.rtcp_feedback`: the array that ends up
in `codec["rtcpFeedback"]`. -/
def rtcpFeedbackList (rtcp_feedback : List RtcpFeedback) : List Json :=
  rtcp_feedback.filterMap rtcpFeedbackJson

/-- The parameter loop: `codec["parameters"].push_back` of a key and a value
inserts the member unless the key is there. -/
def codecParameters : List (String × String) → List (String × Json) → List (String × Json)
  | [], members => members
  | (k, v) :: rest, members =>
    match Json.lookup k members with
    | some _ => codecParameters rest members
    | none => codecParameters rest (members ++ [(k, Json.string v)])

/-- The body of the codec loop for one codec of kind audio or video
(PeerConnection.cpp, lines 32-110): the `codec` document that is pushed.  The
two `value()` calls throw on an empty optional. -/
def codec2Json (kind : String) (nativeCodec : RtpCodecCapability) : Except Error Json :=
  match nativeCodec.clock_rate with
  | none => .error badOptionalAccess
  | some clockRate =>
    match nativeCodec.preferred_payload_type with
    | none => .error badOptionalAccess
    | some preferredPayloadType =>
      .ok (Json.object
        ([("name", Json.string nativeCodec.name),
          ("mimeType", Json.string nativeCodec.mime_type),
          ("kind", Json.string kind),
          ("clockRate", Json.number clockRate),
          ("preferredPayloadType", Json.number preferredPayloadType),
          ("rtcpFeedback", Json.array (rtcpFeedbackList nativeCodec.rtcp_feedback)),
          ("parameters", Json.object (codecParameters nativeCodec.parameters []))] ++
         (match nativeCodec.num_channels with
          | some channels => if channels > 1 then [("channels", Json.number channels)] else []
          | none => [])))

namespace Json

/-- The call `push_back(v)`: null becomes an array. -/
def push_back (j v : Json) : Except Error Json :=
  match j with
  | null => .ok (array [v])
  | array xs => .ok (array (xs ++ [v]))
  | _ => .error typeError308

/-- The statement `j[key].push_back(v)` on a non-const `j`. -/
def pushBackAt (j : Json) (key : String) (v : Json) : Except Error Json :=
  match j.atKey key with
  | .error e => .error e
  | .ok member =>
    match member.push_back v with
    | .error e => .error e
    | .ok pushed => j.setKey key pushed

end Json

/-- The codec loop of `webrtcRtpCapabilities2Json`. -/
def pushCodecs (kind : String) : List RtpCodecCapability → Json → Except Error Unit × Json
  | [], capabilities => (.ok (), capabilities)
  | nativeCodec :: rest, capabilities =>
    if nativeCodec.kind ≠ MediaType.MEDIA_TYPE_AUDIO ∧
        nativeCodec.kind ≠ MediaType.MEDIA_TYPE_VIDEO then
      pushCodecs kind rest capabilities
    else
      match codec2Json kind nativeCodec with
      | .error e => (.error e, capabilities)
      | .ok codec =>
        match capabilities.pushBackAt "codecs" codec with
        | .error e => (.error e, capabilities)
        | .ok pushed => pushCodecs kind rest pushed

/-- The header extension loop of `webrtcRtpCapabilities2Json`. -/
def pushHeaderExtensions (kind : String) :
    List RtpHeaderExtensionCapability → Json → Except Error Unit × Json
  | [], capabilities => (.ok (), capabilities)
  | nativeHeaderExtension :: rest, capabilities =>
    match capabilities.pushBackAt "headerExtensions"
        (Json.object
          ([("kind", Json.string kind), ("uri", Json.string nativeHeaderExtension.uri)] ++
           (match nativeHeaderExtension.preferred_id with
            | some preferredId => [("preferredId", Json.number preferredId)]
            | none => []))) with
    | .error e => (.error e, capabilities)
    | .ok pushed => pushHeaderExtensions kind rest pushed

/-- The function `webrtcRtpCapabilities2Json` (PeerConnection.cpp, lines 19-130): the outcome
and the `capabilities` document (a `json&`) as the call leaves it. -/
def webrtcRtpCapabilities2Json (type : MediaType) (nativeCapabilities : RtpCapabilities)
    (capabilities : Json) : Except Error Unit × Json :=
  if type ≠ MediaType.MEDIA_TYPE_AUDIO ∧ type ≠ MediaType.MEDIA_TYPE_VIDEO then
    (.ok (), capabilities)
  else
    match pushCodecs (MediaTypeToString type) nativeCapabilities.codecs capabilities with
    | (.error e, pushed) => (.error e, pushed)
    | (.ok _, pushed) =>
      pushHeaderExtensions (MediaTypeToString type) nativeCapabilities.header_extensions
        pushed

/-- The elements of the array member `key` of a document; a document without
that member, or whose member is not an array, has none. -/
def Json.memberElements (j : Json) (key : String) : List Json :=
  match j.find key with
  | some member => member.elements
  | none => []

/-- The native codecs the codec loop does not skip: those of kind audio or
video, in their order. -/
def keptCodecs (codecs : List RtpCodecCapability) : List RtpCodecCapability :=
  codecs.filter (fun nativeCodec =>
    decide (nativeCodec.kind = MediaType.MEDIA_TYPE_AUDIO ∨
      nativeCodec.kind = MediaType.MEDIA_TYPE_VIDEO))

/-- The document `capabilities` that `PeerConnection::GetNativeRtpCapabilities`
hands to both of its `webrtcRtpCapabilities2Json` calls (PeerConnection.cpp,
lines 433-438), as it is before the first call. -/
def nativeCapabilitiesDocument : Json :=
  Json.object [("codecs", Json.array []), ("headerExtensions", Json.array []),
    ("fecMechanisms", Json.array [])]

/-- The (type, parameter) pair of an emitted RTCP feedback descriptor. -/
def descriptorPair (descriptor : Json) : Option Json × Option Json :=
  (descriptor.find "type", descriptor.find "parameter")

/-- The (type, message type) pair of a native RTCP feedback entry as the
conversion sees it: an absent message type reads like GENERIC_NACK. -/
def feedbackPair (nativeRtcpFeedback : RtcpFeedback) :
    RtcpFeedbackType × RtcpFeedbackMessageType :=
  (nativeRtcpFeedback.type,
   nativeRtcpFeedback.message_type.getD RtcpFeedbackMessageType.GENERIC_NACK)

/-! ## Concrete collaborators for the worked instances -/

/-- A world-less handler and listener: `Send` answers `sendResult`, `OnProduce`
answers `produceResult`, `StopSending` answers `stopResult`. -/
def constSend (sendResult produceResult : Except Error Json)
    (stopResult : Except Error Unit) : SendCollaborators Unit where
  Send := fun w _ _ => (sendResult, w)
  StopSending := fun w _ => (stopResult, w)
  OnProduce := fun w _ => (produceResult, w)

/-- Track 1 is a live audio track, track 2 a live video track, track 3 an ended
audio track. -/
def demoTracks : Nat → MediaStreamTrack := fun t =>
  if t = 2 then { kind := "video", state := TrackState.kLive, enabled := true }
  else if t = 3 then { kind := "audio", state := TrackState.kEnded, enabled := true }
  else { kind := "audio", state := TrackState.kLive, enabled := true }

def demoOutside : Outside Unit := { tracks := demoTracks, world := (), calls := [] }

def demoSendTransport (closed : Bool) : SendTransport :=
  { id := "transport-1", closed := closed, extendedRtpCapabilities := Json.null,
    appData := Json.null, canProduceByKind := [("audio", true), ("video", true)],
    producers := Registry.empty }

/-- An entry of a simulcast spec carries a numeric `maxBitrate` member. -/
def hasNumericMaxBitrate (entry : Json) : Bool :=
  match entry.find "maxBitrate" with
  | some it => it.is_number
  | none => false

def demoRecvTransport (closed : Bool) : RecvTransport :=
  { id := "transport-2", closed := closed, extendedRtpCapabilities := Json.null,
    appData := Json.null, consumers := Registry.empty }

/-- A world-less receiving handler: `canReceive` answers `canConsume`, `Receive`
answers `receiveResult`, `StopReceiving` returns. -/
def constRecv (canConsume : Except Error Bool) (receiveResult : Except Error TrackPtr) :
    RecvCollaborators Unit where
  canReceive := fun _ _ => canConsume
  Receive := fun w _ _ _ => (receiveResult, w)
  StopReceiving := fun w _ => (.ok (), w)

/-- Remote consumer parameters with the given id, for an audio Producer. -/
def demoConsumerParameters (id : String) : Json :=
  Json.object [("id", Json.string id), ("producerId", Json.string "producer-9"),
    ("kind", Json.string "audio"), ("rtpParameters", Json.object [])]

/-- The spec-modelled handler over an engine that accepts everything. -/
def demoSpecHandler : RecvCollaborators (List String) :=
  specRecvHandler (fun _ _ => .ok true) (fun _ _ _ => .ok (some 5))

def demoSpecOutside : Outside (List String) :=
  { tracks := demoTracks, world := [], calls := [] }

/-- The fresh transport over the spec-modelled handler after one accepted
`Consume` of the Consumer id "c1". -/
def demoAfterFirstConsume :
    Except Error Consumer × RecvTransport × Outside (List String) :=
  (demoRecvTransport false).Consume demoSpecHandler demoSpecOutside 0
    (demoConsumerParameters "c1") Json.null

/-- A handler whose `Send` answers parameters with one encoding per simulcast
entry it is given; signaling answers the id "p1". -/
def echoSend : SendCollaborators Unit where
  Send := fun w _ simulcast => (.ok (Json.object [("encodings", simulcast)]), w)
  StopSending := fun w _ => (.ok (), w)
  OnProduce := fun w _ => (.ok (Json.object [("id", Json.string "p1")]), w)

/-- A negotiator that keeps the advertised document as the extended capability. -/
def demoComputeExtended : Json → Except Error Json := fun router => .ok router

/-- An advertisement with one audio codec and no video codec. -/
def demoRouterCapabilities : Json :=
  Json.object [("codecs", Json.array
    [Json.object [("kind", Json.string "audio"), ("name", Json.string "opus")]])]

/-- The Device after `Load` of the audio-only advertisement. -/
def demoLoadedDevice : Device :=
  (Device.new.Load demoComputeExtended (fun extended => extended)
    demoRouterCapabilities).2

/-- A Consumer "c1" on track 5, closed or not. -/
def demoConsumer (closed : Bool) : Consumer :=
  { Consumer.create 0 "c1" "producer-9" (some 5) (Json.object []) Json.null with
    closed := closed }

/-- A Producer "p1" on the audio track 1. -/
def demoProducer : Producer :=
  { publicListener := 0, id := "p1", track := some 1, rtpParameters := Json.null,
    maxSpatialLayer := 0, appData := Json.null }

/-- A VP8 codec whose feedback list holds NACK without a message type and NACK
with GENERIC_NACK. -/
def demoNackTwiceCodec : RtpCodecCapability :=
  { name := "VP8", kind := MediaType.MEDIA_TYPE_VIDEO, clock_rate := some 90000,
    preferred_payload_type := some 101, num_channels := none, parameters := [],
    rtcp_feedback :=
      [{ type := RtcpFeedbackType.NACK, message_type := none },
       { type := RtcpFeedbackType.NACK,
         message_type := some RtcpFeedbackMessageType.GENERIC_NACK }] }

/-- A VP8 codec with the usual feedback list: REMB, transport-cc, CCM FIR, NACK
and NACK PLI. -/
def demoVp8Codec : RtpCodecCapability :=
  { name := "VP8", kind := MediaType.MEDIA_TYPE_VIDEO, clock_rate := some 90000,
    preferred_payload_type := some 101, num_channels := none, parameters := [],
    rtcp_feedback :=
      [{ type := RtcpFeedbackType.REMB, message_type := none },
       { type := RtcpFeedbackType.TRANSPORT_CC, message_type := none },
       { type := RtcpFeedbackType.CCM, message_type := some RtcpFeedbackMessageType.FIR },
       { type := RtcpFeedbackType.NACK,
         message_type := some RtcpFeedbackMessageType.GENERIC_NACK },
       { type := RtcpFeedbackType.NACK,
         message_type := some RtcpFeedbackMessageType.PLI }] }

/-- An open SendTransport that has the Producer "p1" registered. -/
def demoSendTransportWithProducer : SendTransport :=
  { demoSendTransport false with
    producers := Registry.assign Registry.empty "p1" demoProducer }

/-- An open RecvTransport that has the Consumer "c1" registered. -/
def demoRecvTransportWithConsumer : RecvTransport :=
  { demoRecvTransport false with
    consumers := Registry.assign Registry.empty "c1" (demoConsumer false) }

/-- An RTX codec without RTCP feedback. -/
def demoRtxCodec : RtpCodecCapability :=
  { name := "rtx", kind := MediaType.MEDIA_TYPE_VIDEO, clock_rate := some 90000,
    preferred_payload_type := some 102, num_channels := none,
    parameters := [("apt", "101")], rtcp_feedback := [] }

/-- Native video capabilities: VP8, a data codec that the loop skips, RTX, and
one header extension. -/
def demoVideoCapabilities : RtpCapabilities :=
  { codecs :=
      [demoVp8Codec,
       { name := "sctp", kind := MediaType.MEDIA_TYPE_DATA, clock_rate := none,
         preferred_payload_type := none, num_channels := none, parameters := [],
         rtcp_feedback := [] },
       demoRtxCodec],
    header_extensions :=
      [{ uri := "urn:ietf:params:rtp-hdrext:toffset", preferred_id := some 2 }] }

/-! ## Lemmas -/

theorem Registry.findIn_assignIn_self {α : Type} (key : String) (v : α)
    (l : List (String × α)) : Registry.findIn key (Registry.assignIn key v l) = some v := by
  induction l with
  | nil => simp [Registry.assignIn, Registry.findIn]
  | cons e rest ih =>
    obtain ⟨k, w⟩ := e
    by_cases h : k = key
    · simp [Registry.assignIn, Registry.findIn, h]
    · simp [Registry.assignIn, Registry.findIn, h, ih]

theorem Registry.findIn_assignIn_ne {α : Type} (key other : String) (v : α)
    (h : other ≠ key) (l : List (String × α)) :
    Registry.findIn other (Registry.assignIn key v l) = Registry.findIn other l := by
  induction l with
  | nil => simp [Registry.assignIn, Registry.findIn, Ne.symm h]
  | cons e rest ih =>
    obtain ⟨k, w⟩ := e
    by_cases hk : k = key
    · subst hk
      simp [Registry.assignIn, Registry.findIn, Ne.symm h]
    · by_cases ho : k = other
      · subst ho
        simp [Registry.assignIn, Registry.findIn, hk]
      · simp [Registry.assignIn, Registry.findIn, hk, ho, ih]

theorem Registry.find_assign_self {α : Type} (m : Registry α) (key : String) (v : α) :
    (m.assign key v).find key = some v :=
  Registry.findIn_assignIn_self key v m.entries

theorem Registry.find_assign_ne {α : Type} (m : Registry α) (key other : String) (v : α)
    (h : other ≠ key) : (m.assign key v).find other = m.find other :=
  Registry.findIn_assignIn_ne key other v h m.entries

/-- A failed argument check ends `Produce` with that exception, nothing touched. -/
theorem SendTransport.Produce_of_checks_error {W : Type} (env : SendCollaborators W)
    (self : SendTransport) (out : Outside W) (publicListener : Nat) (track : TrackPtr)
    (simulcast : Json) (maxSpatialLayer : Fin 256) (appData : Json) (e : Error)
    (h : self.produceChecks out.tracks track simulcast maxSpatialLayer = .error e) :
    self.Produce env out publicListener track simulcast maxSpatialLayer appData
      = (.error e, self, out) := by
  simp [SendTransport.Produce, h]

theorem normalizeSimulcast_bad_entry (entries : List Json) :
    ∀ acc : List Json, (∃ entry ∈ entries, hasNumericMaxBitrate entry = false) →
      normalizeSimulcast entries acc = .error (.exception "Invalid simulcast entry") := by
  induction entries with
  | nil => intro acc h; simp at h
  | cons entry rest ih =>
    intro acc h
    unfold normalizeSimulcast
    cases hf : entry.find "maxBitrate" with
    | none => rfl
    | some it =>
      cases hn : it.is_number with
      | false => simp [hn]
      | true =>
        simp only [hn, Bool.not_true, Bool.false_eq_true, if_false]
        apply ih
        rcases h with ⟨bad, hmem, hbad⟩
        rcases List.mem_cons.mp hmem with rfl | hrest
        · simp [hasNumericMaxBitrate, hf, hn] at hbad
        · exact ⟨bad, hrest, hbad⟩

theorem Json.find_of_stringAt {j : Json} {key s : String}
    (h : j.stringAt key = .ok s) : j.find key = some (Json.string s) := by
  cases j with
  | object ms =>
    cases hl : Json.lookup key ms with
    | none => simp [Json.stringAt, Json.atKey, hl, Json.getString] at h
    | some v =>
      cases v <;> simp [Json.stringAt, Json.atKey, hl, Json.getString] at h
      simp [Json.find, hl, h]
  | null => simp [Json.stringAt, Json.atKey, Json.getString] at h
  | bool b => simp [Json.stringAt, Json.atKey] at h
  | number n => simp [Json.stringAt, Json.atKey] at h
  | string t => simp [Json.stringAt, Json.atKey] at h
  | array xs => simp [Json.stringAt, Json.atKey] at h

theorem Json.stringAt_of_find {j : Json} {key s : String}
    (h : j.find key = some (Json.string s)) : j.stringAt key = .ok s := by
  cases j <;> simp [Json.find] at h
  simp [Json.stringAt, Json.atKey, h, Json.getString]

theorem Registry.find_erase {α : Type} (m : Registry α) (key id : String) (c : α)
    (h : (m.erase key).find id = some c) : id ≠ key ∧ m.find id = some c := by
  obtain ⟨entries⟩ := m
  simp only [Registry.erase, Registry.find] at h ⊢
  induction entries with
  | nil => simp [Registry.findIn] at h
  | cons e rest ih =>
    obtain ⟨k, w⟩ := e
    by_cases hk : k = key
    · subst hk
      simp only [ne_eq, decide_not, List.filter_cons, decide_True, Bool.not_true,
        Bool.false_eq_true, if_false] at h
      have := ih (by simpa using h)
      refine ⟨this.1, ?_⟩
      simp [Registry.findIn, Ne.symm this.1, this.2]
    · simp only [ne_eq, decide_not, List.filter_cons, hk, decide_False, Bool.not_false,
        if_true] at h
      by_cases hid : k = id
      · subst hid
        simp only [Registry.findIn, if_true] at h ⊢
        exact ⟨hk, h⟩
      · simp only [Registry.findIn, hid, if_false] at h ⊢
        exact ih (by simpa using h)

/-- The outcomes of `Consume`: either it throws and the transport is as before,
the collaborator state being the old one or the one a `Receive` call left; or
`Receive` returned a track, and the Consumer made of it is returned and
assigned to its id in the registry. -/
theorem RecvTransport.Consume_cases {W : Type} (env : RecvCollaborators W)
    (self : RecvTransport) (out : Outside W) (publicListener : Nat)
    (params appData : Json) :
    ((self.Consume env out publicListener params appData).2.1 = self ∧
      (∃ e, (self.Consume env out publicListener params appData).1 = .error e) ∧
      ((self.Consume env out publicListener params appData).2.2.world = out.world ∨
        ∃ id kind rtp, params.stringAt "id" = .ok id ∧
          (self.Consume env out publicListener params appData).2.2.world
            = (env.Receive out.world id kind rtp).2)) ∨
    (∃ id kind rtp track producerId,
      params.stringAt "id" = .ok id ∧
      (env.Receive out.world id kind rtp).1 = .ok track ∧
      (self.Consume env out publicListener params appData).1
        = .ok (Consumer.create publicListener id producerId track rtp appData) ∧
      (self.Consume env out publicListener params appData).2.1
        = { self with
            consumers := self.consumers.assign id
              (Consumer.create publicListener id producerId track rtp appData) } ∧
      (self.Consume env out publicListener params appData).2.2.world
        = (env.Receive out.world id kind rtp).2) := by
  unfold RecvTransport.Consume
  by_cases hclosed : self.closed = true
  · simp [hclosed]
  by_cases hobj : params.is_object = true
  swap
  · simp [hclosed, hobj]
  by_cases hid : (params.find "id").isNone = true
  · simp [hclosed, hobj, hid]
  by_cases hpid : (params.find "producerId").isNone = true
  · simp [hclosed, hobj, hid, hpid]
  simp only [hclosed, hobj, hid, hpid, Bool.not_true, Bool.false_eq_true, if_false]
  cases hrtp : params.atKey "rtpParameters" with
  | error e => simp
  | ok rtp =>
    cases hcan : env.canReceive rtp self.extendedRtpCapabilities with
    | error e => simp [hcan, Outside.after]
    | ok b =>
      cases b with
      | false => simp [hcan, Outside.after]
      | true =>
        cases hsid : params.stringAt "id" with
        | error e => simp [hcan, hsid, Outside.after]
        | ok id =>
          cases hkind : params.stringAt "kind" with
          | error e => simp [hcan, hsid, hkind, Outside.after]
          | ok kind =>
            cases hrecv : (env.Receive out.world id kind rtp).1 with
            | error e =>
              left
              simp only [hcan, hsid, hkind, Outside.after, hrecv, true_and]
              exact ⟨⟨e, rfl⟩, Or.inr ⟨id, kind, rtp, rfl, rfl⟩⟩
            | ok track =>
              cases hprod : params.stringAt "producerId" with
              | error e =>
                left
                simp only [hcan, hsid, hkind, hprod, Outside.after, hrecv, true_and]
                exact ⟨⟨e, rfl⟩, Or.inr ⟨id, kind, rtp, rfl, rfl⟩⟩
              | ok producerId =>
                right
                refine ⟨id, kind, rtp, track, producerId, rfl, hrecv, ?_, ?_, ?_⟩ <;>
                  simp [hcan, hsid, hkind, hprod, Outside.after, hrecv, Consumer.create]

theorem specRecvHandler_Receive_keeps (canReceive : Json → Json → Except Error Bool)
    (native : String → String → Json → Except Error TrackPtr) (w : List String)
    (id kind : String) (rtp : Json) (x : String) (hx : x ∈ w) :
    x ∈ ((specRecvHandler canReceive native).Receive w id kind rtp).2 := by
  simp only [specRecvHandler]
  by_cases h : id ∈ w
  · simpa [h] using hx
  · cases hn : native id kind rtp <;> simp [h, hn, hx]

theorem specRecvHandler_Receive_adds (canReceive : Json → Json → Except Error Bool)
    (native : String → String → Json → Except Error TrackPtr) (w : List String)
    (id kind : String) (rtp : Json) (track : TrackPtr)
    (h : ((specRecvHandler canReceive native).Receive w id kind rtp).1 = .ok track) :
    id ∈ ((specRecvHandler canReceive native).Receive w id kind rtp).2 := by
  simp only [specRecvHandler] at h ⊢
  by_cases hm : id ∈ w
  · simp [hm] at h
  · cases hn : native id kind rtp <;> simp [hm, hn] at h ⊢

theorem specRecvHandler_Receive_duplicate (canReceive : Json → Json → Except Error Bool)
    (native : String → String → Json → Except Error TrackPtr) (w : List String)
    (id kind : String) (rtp : Json) (h : id ∈ w) :
    (specRecvHandler canReceive native).Receive w id kind rtp
      = (.error (.exception "DuplicateId"), w) := by
  simp [specRecvHandler, h]

/-- Over the spec-modelled handler every registered Consumer id has native
receiving state. -/
theorem RecvReachable.registered_is_receiving
    {canReceive : Json → Json → Except Error Bool}
    {native : String → String → Json → Except Error TrackPtr}
    {self : RecvTransport} {out : Outside (List String)}
    (h : RecvReachable (specRecvHandler canReceive native) self out) :
    ∀ (id : String) (c : Consumer), self.consumers.find id = some c → id ∈ out.world := by
  induction h with
  | init base tracks hopen =>
    intro id c hfind
    simp [Registry.empty, Registry.find, Registry.findIn] at hfind
  | consume self out publicListener params appData _ ih =>
    intro id c hfind
    rcases RecvTransport.Consume_cases (specRecvHandler canReceive native) self out
      publicListener params appData with ⟨hself, -, hworld⟩ | ⟨id', kind, rtp, track,
        producerId, -, hrecv, -, hself, hworld⟩
    · rw [hself] at hfind
      have hin := ih id c hfind
      rcases hworld with hw | ⟨id', kind, rtp, -, hw⟩
      · rw [hw]; exact hin
      · rw [hw]; exact specRecvHandler_Receive_keeps _ _ _ _ _ _ _ hin
    · rw [hself] at hfind
      rw [hworld]
      by_cases hid : id = id'
      · subst hid
        exact specRecvHandler_Receive_adds _ _ _ _ _ _ _ hrecv
      · have hold : self.consumers.find id = some c := by
          rw [← Registry.find_assign_ne self.consumers id' id _ hid]
          exact hfind
        exact specRecvHandler_Receive_keeps _ _ _ _ _ _ _ (ih id c hold)
  | onClose self out consumer _ ih =>
    intro id c hfind
    by_cases hclosed : self.closed = true
    · simp only [RecvTransport.OnClose, hclosed, if_true] at hfind ⊢
      exact ih id c (Registry.find_erase _ _ _ _ hfind).2
    · simp only [RecvTransport.OnClose, hclosed, Bool.false_eq_true, if_false] at hfind ⊢
      have hne := Registry.find_erase _ _ _ _ hfind
      have hin := ih id c hne.2
      simp [Outside.after, specRecvHandler, hin, hne.1]

theorem Registry.find_erase_self {α : Type} (m : Registry α) (key : String) :
    (m.erase key).find key = none := by
  obtain ⟨entries⟩ := m
  simp only [Registry.erase, Registry.find]
  induction entries with
  | nil => simp [Registry.findIn]
  | cons e rest ih =>
    obtain ⟨k, w⟩ := e
    by_cases hk : k = key
    · simpa [List.filter_cons, hk] using ih
    · simpa [List.filter_cons, hk, Registry.findIn] using ih

theorem Registry.find_erase_ne {α : Type} (m : Registry α) (key other : String)
    (h : other ≠ key) : (m.erase key).find other = m.find other := by
  obtain ⟨entries⟩ := m
  simp only [Registry.erase, Registry.find]
  induction entries with
  | nil => simp [Registry.findIn]
  | cons e rest ih =>
    obtain ⟨k, w⟩ := e
    by_cases hk : k = key
    · subst hk
      simpa [List.filter_cons, Registry.findIn, Ne.symm h] using ih
    · by_cases ho : k = other
      · subst ho
        simp [List.filter_cons, hk, Registry.findIn]
      · simpa [List.filter_cons, hk, Registry.findIn, ho] using ih

theorem Json.lookup_assignMember_self (key : String) (v : Json)
    (ms : List (String × Json)) : Json.lookup key (Json.assignMember key v ms) = some v := by
  induction ms with
  | nil => simp [Json.assignMember, Json.lookup]
  | cons e rest ih =>
    obtain ⟨k, w⟩ := e
    by_cases h : k = key
    · simp [Json.assignMember, Json.lookup, h]
    · simp [Json.assignMember, Json.lookup, h, ih]

theorem Json.lookup_assignMember_ne (key other : String) (v : Json) (h : other ≠ key)
    (ms : List (String × Json)) :
    Json.lookup other (Json.assignMember key v ms) = Json.lookup other ms := by
  induction ms with
  | nil => simp [Json.assignMember, Json.lookup, Ne.symm h]
  | cons e rest ih =>
    obtain ⟨k, w⟩ := e
    by_cases hk : k = key
    · subst hk
      simp [Json.assignMember, Json.lookup, Ne.symm h]
    · by_cases ho : k = other
      · subst ho
        simp [Json.assignMember, Json.lookup, hk]
      · simp [Json.assignMember, Json.lookup, hk, ho, ih]

/-- When the argument checks pass, the track is not null and the kind they
return is the kind of that track. -/
theorem SendTransport.produceChecks_kind (self : SendTransport)
    (tracks : Nat → MediaStreamTrack) (track : TrackPtr) (simulcast : Json)
    (maxSpatialLayer : Fin 256) (kind : String)
    (h : self.produceChecks tracks track simulcast maxSpatialLayer = .ok kind) :
    ∃ t, track = some t ∧ kind = (tracks t).kind := by
  unfold SendTransport.produceChecks at h
  split at h
  · cases h
  · split at h
    · cases h
    · rename_i t
      refine ⟨t, rfl, ?_⟩
      split at h
      · cases h
      · split at h
        · cases h
        · split at h
          · cases h
          · split at h
            · cases h
            · split at h
              · split at h
                · cases h
                · cases h; rfl
              · cases h; rfl

/-- A loaded Device asked for a kind whose flag is stored answers that flag and
stays as it is. -/
theorem Device.CanProduce_stored (self : Device) (kind : String) (flag : Bool)
    (hloaded : self.loaded = true) (hkind : kind = "audio" ∨ kind = "video")
    (hflag : self.canProduceByKind.find kind = some flag) :
    self.CanProduce kind = (.ok flag, self) := by
  have hvalid : ¬ (kind ≠ "audio" ∧ kind ≠ "video") := by
    rcases hkind with h | h <;> simp [h]
  obtain ⟨loaded, extended, recv, flags⟩ := self
  simp only at hloaded hflag
  subst hloaded
  simp [Device.CanProduce, hvalid, Registry.index, hflag]

/-- What holds of every Device state: both kinds have a stored flag, and once
loaded the flag of a kind tells whether a codec of that kind survived. -/
theorem DeviceReachable.flags {computeExtended : Json → Except Error Json}
    {deriveRecv : Json → Json} {self : Device}
    (h : DeviceReachable computeExtended deriveRecv self) :
    (∃ a v, self.canProduceByKind.find "audio" = some a ∧
      self.canProduceByKind.find "video" = some v) ∧
    (self.loaded = true →
      self.canProduceByKind.find "audio"
        = some (!(survivingCodecs "audio" self.extendedRtpCapabilities).isEmpty) ∧
      self.canProduceByKind.find "video"
        = some (!(survivingCodecs "video" self.extendedRtpCapabilities).isEmpty)) := by
  induction h with
  | new =>
    refine ⟨⟨false, false, rfl, rfl⟩, ?_⟩
    intro hl
    simp [Device.new] at hl
  | load self router _ ih =>
    by_cases hl : self.loaded = true
    · simpa [Device.Load, hl] using ih
    · cases hc : computeExtended router with
      | error e => simpa [Device.Load, hl, hc] using ih
      | ok extended =>
        have haudio : ((self.canProduceByKind.assign "audio"
            (!(survivingCodecs "audio" extended).isEmpty)).assign "video"
            (!(survivingCodecs "video" extended).isEmpty)).find "audio"
            = some (!(survivingCodecs "audio" extended).isEmpty) := by
          rw [Registry.find_assign_ne _ _ _ _ (by decide)]
          exact Registry.find_assign_self _ _ _
        have hvideo : ((self.canProduceByKind.assign "audio"
            (!(survivingCodecs "audio" extended).isEmpty)).assign "video"
            (!(survivingCodecs "video" extended).isEmpty)).find "video"
            = some (!(survivingCodecs "video" extended).isEmpty) :=
          Registry.find_assign_self _ _ _
        simp only [Device.Load, hl, hc, Bool.false_eq_true, if_false]
        exact ⟨⟨_, _, haudio, hvideo⟩, fun _ => ⟨haudio, hvideo⟩⟩
  | canProduce self kind _ ih =>
    have hsame : (self.CanProduce kind).2 = self := by
      by_cases hl : self.loaded = true
      swap
      · simp [Device.CanProduce, hl]
      by_cases hk : kind ≠ "audio" ∧ kind ≠ "video"
      · simp [Device.CanProduce, hl, hk]
      · obtain ⟨⟨a, v, ha, hv⟩, -⟩ := ih
        have hkind : kind = "audio" ∨ kind = "video" := by
          by_cases h1 : kind = "audio"
          · exact Or.inl h1
          · by_cases h2 : kind = "video"
            · exact Or.inr h2
            · exact absurd ⟨h1, h2⟩ hk
        rcases hkind with h | h
        · subst h
          rw [Device.CanProduce_stored self _ a hl (Or.inl rfl) ha]
        · subst h
          rw [Device.CanProduce_stored self _ v hl (Or.inr rfl) hv]
    rw [hsame]
    exact ih

theorem Registry.size_assign_of_find {α : Type} (m : Registry α) (key : String) (v old : α)
    (h : m.find key = some old) : (m.assign key v).size = m.size := by
  obtain ⟨entries⟩ := m
  simp only [Registry.assign, Registry.size, Registry.find] at h ⊢
  induction entries with
  | nil => simp [Registry.findIn] at h
  | cons e rest ih =>
    obtain ⟨k, w⟩ := e
    by_cases hk : k = key
    · simp [Registry.assignIn, hk]
    · simp only [Registry.findIn, hk, if_false] at h
      simp [Registry.assignIn, hk, ih h]

theorem normalizeSimulcast_extends (entries : List Json) :
    ∀ acc normalized : List Json, normalizeSimulcast entries acc = .ok normalized →
      ∃ tail, normalized = acc ++ tail := by
  induction entries with
  | nil =>
    intro acc normalized h
    simp only [normalizeSimulcast, Except.ok.injEq] at h
    exact ⟨[], by simp [h]⟩
  | cons entry rest ih =>
    intro acc normalized h
    unfold normalizeSimulcast at h
    cases hf : entry.find "maxBitrate" with
    | none => simp [hf] at h
    | some it =>
      cases hn : it.is_number with
      | false => simp [hf, hn] at h
      | true =>
        simp only [hf, hn, Bool.not_true, Bool.false_eq_true, if_false] at h
        obtain ⟨tail, htail⟩ := ih _ _ h
        exact ⟨Json.array [Json.string "maxBitrate", it] :: tail, by simp [htail]⟩

/-- The list the validation loop builds is never the list it walks over: its
first element is a two-element array, the first entry an object. -/
theorem normalizeSimulcast_ne (entry : Json) (rest normalized : List Json)
    (h : normalizeSimulcast (entry :: rest) [] = .ok normalized) :
    normalized ≠ entry :: rest := by
  unfold normalizeSimulcast at h
  cases hf : entry.find "maxBitrate" with
  | none => simp [hf] at h
  | some it =>
    cases hn : it.is_number with
    | false => simp [hf, hn] at h
    | true =>
      simp only [hf, hn, Bool.not_true, Bool.false_eq_true, if_false] at h
      obtain ⟨tail, htail⟩ := normalizeSimulcast_extends _ _ _ h
      intro heq
      rw [htail] at heq
      simp only [List.nil_append, List.cons_append, List.cons.injEq] at heq
      rw [← heq.1] at hf
      simp [Json.find] at hf

/-- Two native feedback entries that both yield a descriptor, with the same
(type, parameter) pair, have the same type and, an absent message type read as
GENERIC_NACK, the same message type. -/
theorem rtcpFeedbackJson_pair (a b : RtcpFeedback) (da db : Json)
    (ha : rtcpFeedbackJson a = some da) (hb : rtcpFeedbackJson b = some db)
    (h : descriptorPair da = descriptorPair db) : feedbackPair a = feedbackPair b := by
  obtain ⟨ta, ma⟩ := a
  obtain ⟨tb, mb⟩ := b
  cases ta <;> simp [rtcpFeedbackJson, rtcpFeedbackTypeString] at ha <;>
    cases tb <;> simp [rtcpFeedbackJson, rtcpFeedbackTypeString] at hb <;>
    rcases ma with _ | ma <;> try cases ma
  all_goals
    rcases mb with _ | mb <;> try cases mb
  all_goals
    simp [rtcpFeedbackMessageTypeString] at ha hb
    subst ha
    subst hb
    simp [descriptorPair, Json.find, Json.lookup, feedbackPair] at h ⊢

/-- The exception of `j[key].get<std::string>()` is one of the two json type
errors. -/
theorem Json.stringAt_error {j : Json} {key : String} {e : Error}
    (h : j.stringAt key = .error e) : e = typeError302 ∨ e = typeError305 := by
  cases j with
  | null =>
    simp [Json.stringAt, Json.atKey, Json.getString] at h
    exact Or.inl h.symm
  | object ms =>
    cases hl : Json.lookup key ms with
    | none =>
      simp [Json.stringAt, Json.atKey, hl, Json.getString] at h
      exact Or.inl h.symm
    | some v =>
      cases v <;> simp [Json.stringAt, Json.atKey, hl, Json.getString] at h <;>
        exact Or.inl h.symm
  | bool b =>
    simp [Json.stringAt, Json.atKey] at h
    exact Or.inr h.symm
  | number n =>
    simp [Json.stringAt, Json.atKey] at h
    exact Or.inr h.symm
  | string t =>
    simp [Json.stringAt, Json.atKey] at h
    exact Or.inr h.symm
  | array xs =>
    simp [Json.stringAt, Json.atKey] at h
    exact Or.inr h.symm

/-- What a successful `j[key].push_back(v)` does to the array members of `j`:
the member `key` gains `v` at its end, every other member is as before. -/
theorem Json.pushBackAt_memberElements {j pushed v : Json} {key : String}
    (h : j.pushBackAt key v = .ok pushed) :
    pushed.memberElements key = j.memberElements key ++ [v] ∧
    ∀ other : String, other ≠ key →
      pushed.memberElements other = j.memberElements other := by
  cases j with
  | null =>
    simp only [Json.pushBackAt, Json.atKey, Json.push_back, Json.setKey,
      Except.ok.injEq] at h
    subst h
    refine ⟨by simp [Json.memberElements, Json.find, Json.lookup, Json.elements], ?_⟩
    intro other hne
    simp [Json.memberElements, Json.find, Json.lookup, Ne.symm hne]
  | object ms =>
    cases hl : Json.lookup key ms with
    | none =>
      simp only [Json.pushBackAt, Json.atKey, hl, Option.getD_none, Json.push_back,
        Json.setKey, Except.ok.injEq] at h
      subst h
      refine ⟨by simp [Json.memberElements, Json.find, Json.lookup_assignMember_self, hl,
        Json.elements], ?_⟩
      intro other hne
      simp [Json.memberElements, Json.find, Json.lookup_assignMember_ne _ _ _ hne]
    | some member =>
      cases member with
      | null =>
        simp only [Json.pushBackAt, Json.atKey, hl, Option.getD_some, Json.push_back,
          Json.setKey, Except.ok.injEq] at h
        subst h
        refine ⟨by simp [Json.memberElements, Json.find, Json.lookup_assignMember_self, hl,
          Json.elements], ?_⟩
        intro other hne
        simp [Json.memberElements, Json.find, Json.lookup_assignMember_ne _ _ _ hne]
      | array xs =>
        simp only [Json.pushBackAt, Json.atKey, hl, Option.getD_some, Json.push_back,
          Json.setKey, Except.ok.injEq] at h
        subst h
        refine ⟨by simp [Json.memberElements, Json.find, Json.lookup_assignMember_self, hl,
          Json.elements], ?_⟩
        intro other hne
        simp [Json.memberElements, Json.find, Json.lookup_assignMember_ne _ _ _ hne]
      | bool b => simp [Json.pushBackAt, Json.atKey, hl, Json.push_back] at h
      | number n => simp [Json.pushBackAt, Json.atKey, hl, Json.push_back] at h
      | string t => simp [Json.pushBackAt, Json.atKey, hl, Json.push_back] at h
      | object os => simp [Json.pushBackAt, Json.atKey, hl, Json.push_back] at h
  | bool b => simp [Json.pushBackAt, Json.atKey] at h
  | number n => simp [Json.pushBackAt, Json.atKey] at h
  | string t => simp [Json.pushBackAt, Json.atKey] at h
  | array xs => simp [Json.pushBackAt, Json.atKey] at h

/-- On an object whose member `key` is an array, `j[key].push_back(v)` returns,
and the member is that array with `v` at its end. -/
theorem Json.pushBackAt_array (ms : List (String × Json)) (key : String) (xs : List Json)
    (v : Json) (h : Json.lookup key ms = some (Json.array xs)) :
    (Json.object ms).pushBackAt key v
      = .ok (Json.object (Json.assignMember key (Json.array (xs ++ [v])) ms)) := by
  simp [Json.pushBackAt, Json.atKey, h, Json.push_back, Json.setKey]

/-- The codec document carries the converted feedback list as its
`rtcpFeedback` member. -/
theorem codec2Json_rtcpFeedback (kind : String) (nativeCodec : RtpCodecCapability)
    (codec : Json) (h : codec2Json kind nativeCodec = .ok codec) :
    codec.find "rtcpFeedback"
      = some (Json.array (rtcpFeedbackList nativeCodec.rtcp_feedback)) := by
  unfold codec2Json at h
  cases hc : nativeCodec.clock_rate with
  | none => simp [hc] at h
  | some clockRate =>
    cases hp : nativeCodec.preferred_payload_type with
    | none => simp [hc, hp] at h
    | some preferredPayloadType =>
      simp only [hc, hp, Except.ok.injEq] at h
      subst h
      simp [Json.find, Json.lookup]

/-- A feedback list without two entries of the same type and, an absent message
type read as GENERIC_NACK, the same message type is converted to descriptors
with pairwise different (type, parameter) pairs. -/
theorem rtcpFeedbackList_pairwise (rtcp_feedback : List RtcpFeedback)
    (h : rtcp_feedback.Pairwise (fun a b => feedbackPair a ≠ feedbackPair b)) :
    (rtcpFeedbackList rtcp_feedback).Pairwise
      (fun d e => descriptorPair d ≠ descriptorPair e) := by
  unfold rtcpFeedbackList
  refine List.Pairwise.filterMap rtcpFeedbackJson ?_ h
  intro a b hab da hda db hdb heq
  exact hab (rtcpFeedbackJson_pair a b da db hda hdb heq)

/-- The codec loop, on any document: the kept codecs are converted in order up
to the first failure (all of them when the loop returns), and the documents of
the converted ones, each the `codec2Json` of its codec, are what the member
`codecs` gains at its end. -/
theorem pushCodecs_emits (kind : String) (codecs : List RtpCodecCapability) :
    ∀ capabilities : Json,
    ∃ (converted remaining : List RtpCodecCapability) (emitted : List Json),
      keptCodecs codecs = converted ++ remaining ∧
      ((pushCodecs kind codecs capabilities).1 = .ok () → remaining = []) ∧
      (pushCodecs kind codecs capabilities).2.memberElements "codecs"
        = capabilities.memberElements "codecs" ++ emitted ∧
      List.Forall₂ (fun nativeCodec codec => codec2Json kind nativeCodec = .ok codec)
        converted emitted := by
  induction codecs with
  | nil =>
    intro capabilities
    exact ⟨[], [], [], by simp [keptCodecs], by simp, by simp [pushCodecs],
      List.Forall₂.nil⟩
  | cons nativeCodec rest ih =>
    intro capabilities
    by_cases hskip : nativeCodec.kind ≠ MediaType.MEDIA_TYPE_AUDIO ∧
        nativeCodec.kind ≠ MediaType.MEDIA_TYPE_VIDEO
    · obtain ⟨converted, remaining, emitted, hkept, hall, hmem, hdocs⟩ := ih capabilities
      refine ⟨converted, remaining, emitted, ?_, ?_, ?_, hdocs⟩
      · simpa [keptCodecs, List.filter_cons, hskip.1, hskip.2] using hkept
      · simpa [pushCodecs, hskip] using hall
      · simpa [pushCodecs, hskip] using hmem
    · have hkeep : keptCodecs (nativeCodec :: rest) = nativeCodec :: keptCodecs rest := by
        have : nativeCodec.kind = MediaType.MEDIA_TYPE_AUDIO ∨
            nativeCodec.kind = MediaType.MEDIA_TYPE_VIDEO := by
          by_cases h1 : nativeCodec.kind = MediaType.MEDIA_TYPE_AUDIO
          · exact Or.inl h1
          · by_cases h2 : nativeCodec.kind = MediaType.MEDIA_TYPE_VIDEO
            · exact Or.inr h2
            · exact absurd ⟨h1, h2⟩ hskip
        simp [keptCodecs, List.filter_cons, this]
      cases hcodec : codec2Json kind nativeCodec with
      | error e =>
        exact ⟨[], keptCodecs (nativeCodec :: rest), [], by simp,
          by simp [pushCodecs, hskip, hcodec], by simp [pushCodecs, hskip, hcodec],
          List.Forall₂.nil⟩
      | ok codec =>
        cases hpush : capabilities.pushBackAt "codecs" codec with
        | error e =>
          exact ⟨[], keptCodecs (nativeCodec :: rest), [], by simp,
            by simp [pushCodecs, hskip, hcodec, hpush],
            by simp [pushCodecs, hskip, hcodec, hpush], List.Forall₂.nil⟩
        | ok pushed =>
          obtain ⟨converted, remaining, emitted, hkept, hall, hmem, hdocs⟩ := ih pushed
          refine ⟨nativeCodec :: converted, remaining, codec :: emitted, ?_, ?_, ?_,
            List.Forall₂.cons hcodec hdocs⟩
          · simp [hkeep, hkept]
          · simpa [pushCodecs, hskip, hcodec, hpush] using hall
          · simp only [pushCodecs, hskip, hcodec, hpush, if_false]
            rw [hmem, (Json.pushBackAt_memberElements hpush).1]
            simp

/-- The header extension loop leaves every array member other than
`headerExtensions` as it is, on any document. -/
theorem pushHeaderExtensions_memberElements (kind : String)
    (extensions : List RtpHeaderExtensionCapability) (other : String)
    (hne : other ≠ "headerExtensions") :
    ∀ capabilities : Json,
      (pushHeaderExtensions kind extensions capabilities).2.memberElements other
        = capabilities.memberElements other := by
  induction extensions with
  | nil => intro capabilities; simp [pushHeaderExtensions]
  | cons extension rest ih =>
    intro capabilities
    unfold pushHeaderExtensions
    split
    · rfl
    · rename_i pushed hpush
      rw [ih pushed]
      exact (Json.pushBackAt_memberElements hpush).2 other hne

/-- The codec loop returns on an object whose member `codecs` is an array when
every kept codec has a clock rate and a payload type; the document stays an
object, `codecs` stays an array and the other members are as before. -/
theorem pushCodecs_returns (kind : String) (codecs : List RtpCodecCapability)
    (hvalues : ∀ nativeCodec ∈ keptCodecs codecs,
      nativeCodec.clock_rate.isSome = true ∧
      nativeCodec.preferred_payload_type.isSome = true) :
    ∀ (members : List (String × Json)) (existing : List Json),
      Json.lookup "codecs" members = some (Json.array existing) →
      ∃ (pushed : List (String × Json)) (all : List Json),
        pushCodecs kind codecs (Json.object members) = (.ok (), Json.object pushed) ∧
        Json.lookup "codecs" pushed = some (Json.array all) ∧
        ∀ other : String, other ≠ "codecs" →
          Json.lookup other pushed = Json.lookup other members := by
  induction codecs with
  | nil =>
    intro members existing hcodecs
    exact ⟨members, existing, by simp [pushCodecs], hcodecs, fun _ _ => rfl⟩
  | cons nativeCodec rest ih =>
    intro members existing hcodecs
    by_cases hskip : nativeCodec.kind ≠ MediaType.MEDIA_TYPE_AUDIO ∧
        nativeCodec.kind ≠ MediaType.MEDIA_TYPE_VIDEO
    · have hrest : ∀ c ∈ keptCodecs rest,
          c.clock_rate.isSome = true ∧ c.preferred_payload_type.isSome = true := by
        intro c hc
        apply hvalues c
        simpa [keptCodecs, List.filter_cons, hskip.1, hskip.2] using hc
      obtain ⟨pushed, all, hrun, hall, hother⟩ := ih hrest members existing hcodecs
      exact ⟨pushed, all, by simpa [pushCodecs, hskip] using hrun, hall, hother⟩
    · have hkind : nativeCodec.kind = MediaType.MEDIA_TYPE_AUDIO ∨
          nativeCodec.kind = MediaType.MEDIA_TYPE_VIDEO := by
        by_cases h1 : nativeCodec.kind = MediaType.MEDIA_TYPE_AUDIO
        · exact Or.inl h1
        · by_cases h2 : nativeCodec.kind = MediaType.MEDIA_TYPE_VIDEO
          · exact Or.inr h2
          · exact absurd ⟨h1, h2⟩ hskip
      have hkeep : keptCodecs (nativeCodec :: rest) = nativeCodec :: keptCodecs rest := by
        simp [keptCodecs, List.filter_cons, hkind]
      have hhere := hvalues nativeCodec (by simp [hkeep])
      have hrest : ∀ c ∈ keptCodecs rest,
          c.clock_rate.isSome = true ∧ c.preferred_payload_type.isSome = true := by
        intro c hc
        exact hvalues c (by simp [hkeep, hc])
      obtain ⟨clockRate, hclock⟩ := Option.isSome_iff_exists.mp hhere.1
      obtain ⟨payloadType, hpayload⟩ := Option.isSome_iff_exists.mp hhere.2
      obtain ⟨codec, hcodec⟩ : ∃ codec, codec2Json kind nativeCodec = .ok codec := by
        simp only [codec2Json, hclock, hpayload]
        exact ⟨_, rfl⟩
      obtain ⟨pushed, all, hrun, hall, hother⟩ :=
        ih hrest (Json.assignMember "codecs" (Json.array (existing ++ [codec])) members)
          (existing ++ [codec]) (Json.lookup_assignMember_self _ _ _)
      refine ⟨pushed, all, ?_, hall, ?_⟩
      · simp only [pushCodecs, hskip, hcodec, Json.pushBackAt_array members "codecs"
          existing codec hcodecs, if_false]
        exact hrun
      · intro other hne
        rw [hother other hne]
        exact Json.lookup_assignMember_ne _ _ _ hne _

/-- The header extension loop returns on an object whose member
`headerExtensions` is an array. -/
theorem pushHeaderExtensions_returns (kind : String)
    (extensions : List RtpHeaderExtensionCapability) :
    ∀ (members : List (String × Json)) (existing : List Json),
      Json.lookup "headerExtensions" members = some (Json.array existing) →
      (pushHeaderExtensions kind extensions (Json.object members)).1 = .ok () := by
  induction extensions with
  | nil => intro members existing _; simp [pushHeaderExtensions]
  | cons extension rest ih =>
    intro members existing hext
    simp only [pushHeaderExtensions,
      Json.pushBackAt_array members "headerExtensions" existing _ hext]
    exact ih _ _ (Json.lookup_assignMember_self _ _ _)

/-! ## Theorems -/

/-- C1: on an open SendTransport, a live non-video track together with a
simulcast array that is non-empty, or with a maximum spatial layer above 0,
makes Produce throw "Cannot set simulcast on audio track" and leaves the
transport (so its producer registry), the collaborator state and the call log
as they were: neither the handler's Send nor OnProduce has been invoked. -/
theorem produce_simulcast_on_non_video_fails {W : Type} (env : SendCollaborators W)
    (self : SendTransport) (out : Outside W) (publicListener : Nat) (t : Nat)
    (entries : List Json) (maxSpatialLayer : Fin 256) (appData : Json)
    (hopen : self.closed = false)
    (hlive : (out.tracks t).state ≠ TrackState.kEnded)
    (hkind : (out.tracks t).kind ≠ "video")
    (hreq : entries ≠ [] ∨ 0 < maxSpatialLayer) :
    self.Produce env out publicListener (some t) (Json.array entries) maxSpatialLayer appData
      = (.error (.exception "Cannot set simulcast on audio track"), self, out) := by
  apply SendTransport.Produce_of_checks_error
  by_cases hl : entries = []
  · have hm : maxSpatialLayer > 0 := hreq.resolve_left (fun h => h hl)
    simp [SendTransport.produceChecks, hopen, hlive, hkind, Json.is_array, Json.size, hl, hm]
  · simp [SendTransport.produceChecks, hopen, hlive, hkind, Json.is_array, Json.size, hl]

/-- Worked instance of C1: the audio track 1 with a one-entry simulcast array. -/
theorem produce_simulcast_on_non_video_fails_witness :
    (demoSendTransport false).Produce (constSend (.ok Json.null) (.ok Json.null) (.ok ()))
        demoOutside 0 (some 1) (Json.array [Json.null]) 0 Json.null
      = (.error (.exception "Cannot set simulcast on audio track"),
         demoSendTransport false, demoOutside) :=
  produce_simulcast_on_non_video_fails _ _ _ 0 1 [Json.null] 0 Json.null rfl
    (by decide) (by decide) (Or.inl (by simp))

/-- C5: on a closed SendTransport, Produce throws "Invalid state" for every
track (null or not), simulcast value, layer and appData, and leaves the
transport, the collaborator state and the call log as they were: no Send, no
OnProduce, producer registry unchanged. -/
theorem produce_on_closed_transport_fails {W : Type} (env : SendCollaborators W)
    (self : SendTransport) (out : Outside W) (publicListener : Nat) (track : TrackPtr)
    (simulcast : Json) (maxSpatialLayer : Fin 256) (appData : Json)
    (hclosed : self.closed = true) :
    self.Produce env out publicListener track simulcast maxSpatialLayer appData
      = (.error (.exception "Invalid state"), self, out) := by
  apply SendTransport.Produce_of_checks_error
  simp [SendTransport.produceChecks, hclosed]

/-- Worked instance of C5: a closed transport, a null track and a simulcast
value that is not even an array. -/
theorem produce_on_closed_transport_fails_witness :
    (demoSendTransport true).Produce (constSend (.ok Json.null) (.ok Json.null) (.ok ()))
        demoOutside 0 none (Json.bool true) 2 Json.null
      = (.error (.exception "Invalid state"), demoSendTransport true, demoOutside) :=
  produce_on_closed_transport_fails _ _ _ 0 none (Json.bool true) 2 Json.null rfl

/-- C7: on an open SendTransport, Produce throws "Track cannot be null" for a
null track and "Track ended" for a track whose state is ended, whatever the
simulcast value and the layer; in both cases the transport (its producer
registry), the collaborator state and the call log are as before, so Send has
not been invoked. -/
theorem produce_without_live_track_fails {W : Type} (env : SendCollaborators W)
    (self : SendTransport) (out : Outside W) (publicListener : Nat)
    (simulcast : Json) (maxSpatialLayer : Fin 256) (appData : Json)
    (hopen : self.closed = false) :
    self.Produce env out publicListener none simulcast maxSpatialLayer appData
        = (.error (.exception "Track cannot be null"), self, out) ∧
    ∀ t : Nat, (out.tracks t).state = TrackState.kEnded →
      self.Produce env out publicListener (some t) simulcast maxSpatialLayer appData
        = (.error (.exception "Track ended"), self, out) := by
  refine ⟨?_, ?_⟩
  · apply SendTransport.Produce_of_checks_error
    simp [SendTransport.produceChecks, hopen]
  · intro t hended
    apply SendTransport.Produce_of_checks_error
    simp [SendTransport.produceChecks, hopen, hended]

/-- Worked instance of C7: the null track, and the ended track 3. -/
theorem produce_without_live_track_fails_witness :
    (demoSendTransport false).Produce (constSend (.ok Json.null) (.ok Json.null) (.ok ()))
        demoOutside 0 none (Json.array []) 0 Json.null
      = (.error (.exception "Track cannot be null"), demoSendTransport false, demoOutside) ∧
    (demoSendTransport false).Produce (constSend (.ok Json.null) (.ok Json.null) (.ok ()))
        demoOutside 0 (some 3) (Json.array []) 0 Json.null
      = (.error (.exception "Track ended"), demoSendTransport false, demoOutside) :=
  ⟨(produce_without_live_track_fails _ _ _ 0 (Json.array []) 0 Json.null rfl).1,
   (produce_without_live_track_fails (constSend (.ok Json.null) (.ok Json.null) (.ok ()))
      (demoSendTransport false) demoOutside 0 (Json.array []) 0 Json.null rfl).2 3
      (by decide)⟩

/-- C8 as stated fails: on the live video track 2 a one-entry simulcast array
whose entry has no `maxBitrate` is not rejected; `Send` is invoked with it and
Produce returns a Producer. -/
theorem produce_single_malformed_entry_is_sent :
    hasNumericMaxBitrate (Json.object []) = false ∧
    ((demoSendTransport false).Produce
        (constSend (.ok Json.null) (.ok (Json.object [("id", Json.string "p1")])) (.ok ()))
        demoOutside 0 (some 2) (Json.array [Json.object []]) 0 Json.null).1
      = .ok { publicListener := 0, id := "p1", track := some 2,
              rtpParameters := Json.null, maxSpatialLayer := 0, appData := Json.null } ∧
    ((demoSendTransport false).Produce
        (constSend (.ok Json.null) (.ok (Json.object [("id", Json.string "p1")])) (.ok ()))
        demoOutside 0 (some 2) (Json.array [Json.object []]) 0 Json.null).2.2.calls
      = [Call.Send (some 2) (Json.array [Json.object []]),
         Call.OnProduce (producerLocalParameters "video" Json.null Json.null)] :=
  ⟨rfl, rfl, rfl⟩

/-- C8, amended: on an open SendTransport and a live track, Produce throws
"Invalid simulcast" when the simulcast value is not an array (any track kind)
and "Invalid simulcast entry" when the track is a video track, the array has
more than one entry and some entry has no numeric `maxBitrate`; either way the
transport, the collaborator state and the call log are as before, so Send has
not been invoked. -/
theorem produce_malformed_simulcast_fails {W : Type} (env : SendCollaborators W)
    (self : SendTransport) (out : Outside W) (publicListener : Nat) (t : Nat)
    (simulcast : Json) (maxSpatialLayer : Fin 256) (appData : Json)
    (hopen : self.closed = false)
    (hlive : (out.tracks t).state ≠ TrackState.kEnded) :
    (simulcast.is_array = false →
      self.Produce env out publicListener (some t) simulcast maxSpatialLayer appData
        = (.error (.exception "Invalid simulcast"), self, out)) ∧
    (∀ entries : List Json, simulcast = Json.array entries →
      (out.tracks t).kind = "video" → 1 < entries.length →
      (∃ entry ∈ entries, hasNumericMaxBitrate entry = false) →
      self.Produce env out publicListener (some t) simulcast maxSpatialLayer appData
        = (.error (.exception "Invalid simulcast entry"), self, out)) := by
  refine ⟨?_, ?_⟩
  · intro hna
    apply SendTransport.Produce_of_checks_error
    simp [SendTransport.produceChecks, hopen, hlive, hna]
  · intro entries hs hvideo hlen hbad
    subst hs
    apply SendTransport.Produce_of_checks_error
    simp [SendTransport.produceChecks, hopen, hlive, hvideo, Json.is_array, Json.size,
      Json.elements, hlen, normalizeSimulcast_bad_entry entries [] hbad]

/-- Worked instance of C8 amended: `true` as simulcast on the audio track 1,
and a two-entry array with an entry without `maxBitrate` on the video track 2. -/
theorem produce_malformed_simulcast_fails_witness :
    (demoSendTransport false).Produce (constSend (.ok Json.null) (.ok Json.null) (.ok ()))
        demoOutside 0 (some 1) (Json.bool true) 2 Json.null
      = (.error (.exception "Invalid simulcast"), demoSendTransport false, demoOutside) ∧
    (demoSendTransport false).Produce (constSend (.ok Json.null) (.ok Json.null) (.ok ()))
        demoOutside 0 (some 2)
        (Json.array [Json.object [("maxBitrate", Json.number 100000)], Json.object []])
        0 Json.null
      = (.error (.exception "Invalid simulcast entry"), demoSendTransport false,
         demoOutside) :=
  ⟨(produce_malformed_simulcast_fails _ _ _ 0 1 (Json.bool true) 2 Json.null rfl
      (by decide)).1 rfl,
   (produce_malformed_simulcast_fails (constSend (.ok Json.null) (.ok Json.null) (.ok ()))
      (demoSendTransport false) demoOutside 0 2
      (Json.array [Json.object [("maxBitrate", Json.number 100000)], Json.object []])
      0 Json.null rfl (by decide)).2 _ rfl (by decide) (by decide)
      ⟨Json.object [], by simp, rfl⟩⟩

/-- C2 as stated fails.  On the audio track 1, with `Send` succeeding and
`OnProduce` failing with the Exception "rejected": when `StopSending` itself
throws, Produce ends with the exception of `StopSending`, not with the
signaling error.  And when `OnProduce` fails with an exception that is not a
`mediasoupclient::Exception`, the `catch (Exception&)` clause is skipped and
`StopSending` is not called at all. -/
theorem produce_signaling_failure_not_always_rolled_back :
    ((demoSendTransport false).Produce
        (constSend (.ok Json.null) (.error (.exception "rejected"))
          (.error (.exception "Local track not found")))
        demoOutside 0 (some 1) (Json.array []) 0 Json.null).1
      = .error (.exception "Local track not found") ∧
    ((demoSendTransport false).Produce
        (constSend (.ok Json.null) (.error (.other "std::runtime_error")) (.ok ()))
        demoOutside 0 (some 1) (Json.array []) 0 Json.null).2.2.calls
      = [Call.Send (some 1) (Json.array []),
         Call.OnProduce (producerLocalParameters "audio" Json.null Json.null)] :=
  ⟨rfl, rfl⟩

/-- C2, amended: when the argument checks of Produce pass, the handler's Send
returns and OnProduce fails with a `mediasoupclient::Exception`, then the calls
made are exactly Send, OnProduce and then StopSending on that same track, the
transport (so its producer registry) is unchanged, Produce fails, and provided
StopSending returns, the exception leaving Produce is the one OnProduce
failed with. -/
theorem produce_signaling_exception_rolls_back {W : Type} (env : SendCollaborators W)
    (self : SendTransport) (out : Outside W) (publicListener : Nat) (track : TrackPtr)
    (simulcast : Json) (maxSpatialLayer : Fin 256) (appData : Json)
    (kind : String) (rtpParameters : Json) (message : String)
    (hchecks : self.produceChecks out.tracks track simulcast maxSpatialLayer = .ok kind)
    (hsend : (env.Send out.world track simulcast).1 = .ok rtpParameters)
    (hreject : (env.OnProduce (env.Send out.world track simulcast).2
        (producerLocalParameters kind rtpParameters appData)).1
        = .error (.exception message)) :
    (self.Produce env out publicListener track simulcast maxSpatialLayer appData).2.2.calls
      = out.calls ++ [Call.Send track simulcast,
          Call.OnProduce (producerLocalParameters kind rtpParameters appData),
          Call.StopSending track] ∧
    (self.Produce env out publicListener track simulcast maxSpatialLayer appData).2.1
      = self ∧
    (∃ e, (self.Produce env out publicListener track simulcast maxSpatialLayer appData).1
      = .error e) ∧
    ((env.StopSending (env.OnProduce (env.Send out.world track simulcast).2
        (producerLocalParameters kind rtpParameters appData)).2 track).1 = .ok () →
      (self.Produce env out publicListener track simulcast maxSpatialLayer appData).1
        = .error (.exception message)) := by
  cases hstop : (env.StopSending (env.OnProduce (env.Send out.world track simulcast).2
      (producerLocalParameters kind rtpParameters appData)).2 track).1 with
  | error e =>
    simp [SendTransport.Produce, hchecks, hsend, hreject, hstop, Outside.after]
  | ok u =>
    simp [SendTransport.Produce, hchecks, hsend, hreject, hstop, Outside.after]

/-- Worked instance of C2 amended: the audio track 1, `OnProduce` failing with
the Exception "rejected", `StopSending` returning. -/
theorem produce_signaling_exception_rolls_back_witness :
    ((demoSendTransport false).Produce
        (constSend (.ok Json.null) (.error (.exception "rejected")) (.ok ()))
        demoOutside 0 (some 1) (Json.array []) 0 Json.null).1
      = .error (.exception "rejected") :=
  (produce_signaling_exception_rolls_back
    (constSend (.ok Json.null) (.error (.exception "rejected")) (.ok ()))
    (demoSendTransport false) demoOutside 0 (some 1) (Json.array []) 0 Json.null
    "audio" Json.null "rejected" rfl rfl rfl).2.2.2 rfl

/-- C10: when Produce returns a Producer, the handler's Send returned some
rtpParameters and OnProduce answered a document whose `id` member is the
string that is the Producer's id; the Producer's track, maxSpatialLayer and
appData are the caller's arguments and its rtpParameters are those Send
returned; afterwards the producer registry maps that id to the returned
Producer and every other id to what it mapped to before. -/
theorem produce_success_registers_producer {W : Type} (env : SendCollaborators W)
    (self : SendTransport) (out : Outside W) (publicListener : Nat) (track : TrackPtr)
    (simulcast : Json) (maxSpatialLayer : Fin 256) (appData : Json)
    (producer : Producer) (self' : SendTransport) (out' : Outside W)
    (h : self.Produce env out publicListener track simulcast maxSpatialLayer appData
        = (.ok producer, self', out')) :
    ∃ kind rtpParameters producerRemoteParameters,
      self.produceChecks out.tracks track simulcast maxSpatialLayer = .ok kind ∧
      (env.Send out.world track simulcast).1 = .ok rtpParameters ∧
      (env.OnProduce (env.Send out.world track simulcast).2
          (producerLocalParameters kind rtpParameters appData)).1
        = .ok producerRemoteParameters ∧
      producerRemoteParameters.find "id" = some (Json.string producer.id) ∧
      producer.track = track ∧
      producer.maxSpatialLayer = maxSpatialLayer ∧
      producer.appData = appData ∧
      producer.rtpParameters = rtpParameters ∧
      self'.producers.find producer.id = some producer ∧
      ∀ other : String, other ≠ producer.id →
        self'.producers.find other = self.producers.find other := by
  unfold SendTransport.Produce at h
  cases hc : self.produceChecks out.tracks track simulcast maxSpatialLayer with
  | error e => simp [hc] at h
  | ok kind =>
    cases hs : (env.Send out.world track simulcast).1 with
    | error e => simp [hc, hs] at h
    | ok rtpParameters =>
      cases ha : (env.OnProduce (env.Send out.world track simulcast).2
          (producerLocalParameters kind rtpParameters appData)).1 with
      | error e =>
        cases e with
        | exception message =>
          cases hst : (env.StopSending (env.OnProduce (env.Send out.world track simulcast).2
            (producerLocalParameters kind rtpParameters appData)).2 track).1 <;>
            simp [hc, hs, ha, hst, Outside.after] at h
        | other what => simp [hc, hs, ha, Outside.after] at h
      | ok producerRemoteParameters =>
        cases hid : producerRemoteParameters.stringAt "id" with
        | error e => simp [hc, hs, ha, hid, Outside.after] at h
        | ok id =>
          simp only [hc, hs, ha, hid, Outside.after, Prod.mk.injEq, Except.ok.injEq] at h
          obtain ⟨hp, hself, -⟩ := h
          subst hp
          subst hself
          refine ⟨kind, rtpParameters, producerRemoteParameters, rfl, rfl, ha,
            Json.find_of_stringAt hid, rfl, rfl, rfl, rfl, ?_, ?_⟩
          · exact Registry.find_assign_self _ _ _
          · intro other hne
            exact Registry.find_assign_ne _ _ _ _ hne

/-- Worked instance of C10: producing the audio track 1 on a fresh transport
whose signaling answers the id "p1". -/
theorem produce_success_registers_producer_witness :
    ∃ kind rtpParameters producerRemoteParameters,
      (demoSendTransport false).produceChecks demoOutside.tracks (some 1) (Json.array []) 0
        = .ok kind ∧
      ((constSend (.ok (Json.object [])) (.ok (Json.object [("id", Json.string "p1")]))
          (.ok ())).Send demoOutside.world (some 1) (Json.array [])).1 = .ok rtpParameters ∧
      ((constSend (.ok (Json.object [])) (.ok (Json.object [("id", Json.string "p1")]))
          (.ok ())).OnProduce
          ((constSend (.ok (Json.object [])) (.ok (Json.object [("id", Json.string "p1")]))
            (.ok ())).Send demoOutside.world (some 1) (Json.array [])).2
          (producerLocalParameters kind rtpParameters (Json.string "app"))).1
        = .ok producerRemoteParameters ∧
      producerRemoteParameters.find "id" = some (Json.string "p1") ∧
      (some 1 : TrackPtr) = some 1 ∧
      (0 : Fin 256) = 0 ∧
      Json.string "app" = Json.string "app" ∧
      Json.object [] = rtpParameters ∧
      (Registry.assign (demoSendTransport false).producers "p1"
          { publicListener := 7, id := "p1", track := some 1, rtpParameters := Json.object [],
            maxSpatialLayer := 0, appData := Json.string "app" }).find "p1"
        = some { publicListener := 7, id := "p1", track := some 1,
                 rtpParameters := Json.object [], maxSpatialLayer := 0,
                 appData := Json.string "app" } ∧
      ∀ other : String, other ≠ "p1" →
        (Registry.assign (demoSendTransport false).producers "p1"
          { publicListener := 7, id := "p1", track := some 1, rtpParameters := Json.object [],
            maxSpatialLayer := 0, appData := Json.string "app" }).find other
          = (demoSendTransport false).producers.find other :=
  produce_success_registers_producer
    (constSend (.ok (Json.object [])) (.ok (Json.object [("id", Json.string "p1")])) (.ok ()))
    (demoSendTransport false) demoOutside 7 (some 1) (Json.array []) 0 (Json.string "app")
    { publicListener := 7, id := "p1", track := some 1, rtpParameters := Json.object [],
      maxSpatialLayer := 0, appData := Json.string "app" }
    { demoSendTransport false with
      producers := Registry.assign (demoSendTransport false).producers "p1"
        { publicListener := 7, id := "p1", track := some 1, rtpParameters := Json.object [],
          maxSpatialLayer := 0, appData := Json.string "app" } }
    ((demoOutside.after (Call.Send (some 1) (Json.array [])) ()).after
      (Call.OnProduce (producerLocalParameters "audio" (Json.object []) (Json.string "app")))
      ())
    rfl

/-- C3: on an open RecvTransport, remote parameters that are an object with an
`id` and a `producerId` member and whose rtpParameters `canReceive` answers
false for make Consume throw "cannot consume this Producer"; the transport (so
its consumer registry) and the collaborator state are as before and the only
logged call is the evaluation of `canReceive`: `Receive` is not invoked. -/
theorem consume_unsupported_fails {W : Type} (env : RecvCollaborators W)
    (self : RecvTransport) (out : Outside W) (publicListener : Nat)
    (params appData rtpParameters : Json)
    (hopen : self.closed = false)
    (hobject : params.is_object = true)
    (hid : (params.find "id").isSome = true)
    (hproducerId : (params.find "producerId").isSome = true)
    (hrtp : params.atKey "rtpParameters" = .ok rtpParameters)
    (hcannot : env.canReceive rtpParameters self.extendedRtpCapabilities = .ok false) :
    self.Consume env out publicListener params appData
      = (.error (.exception "cannot consume this Producer"), self,
         { out with calls := out.calls ++
             [Call.canReceive rtpParameters self.extendedRtpCapabilities] }) := by
  have hid' : (params.find "id").isNone = false := by
    cases h : params.find "id" <;> simp [h] at hid ⊢
  have hpid' : (params.find "producerId").isNone = false := by
    cases h : params.find "producerId" <;> simp [h] at hproducerId ⊢
  simp [RecvTransport.Consume, hopen, hobject, hid', hpid', hrtp, hcannot, Outside.after]

/-- Worked instance of C3: parameters the handler's capabilities reject. -/
theorem consume_unsupported_fails_witness :
    (demoRecvTransport false).Consume (constRecv (.ok false) (.ok (some 5))) demoOutside 0
        (demoConsumerParameters "c1") Json.null
      = (.error (.exception "cannot consume this Producer"), demoRecvTransport false,
         { demoOutside with calls := [Call.canReceive (Json.object []) Json.null] }) :=
  consume_unsupported_fails (constRecv (.ok false) (.ok (some 5))) (demoRecvTransport false)
    demoOutside 0 (demoConsumerParameters "c1") Json.null (Json.object [])
    rfl rfl rfl rfl rfl rfl

/-- C4: on a RecvTransport over the spec-modelled handler, in any state reached
from construction through Consume calls and Consumer close notifications (such
a transport is open), if the registry holds a Consumer under the id X then a
further Consume with remote parameters whose id is X fails, the transport is as
before, and the registry still maps X to that first Consumer. -/
theorem consume_duplicate_id_fails (canReceive : Json → Json → Except Error Bool)
    (native : String → String → Json → Except Error TrackPtr)
    (self : RecvTransport) (out : Outside (List String))
    (hreach : RecvReachable (specRecvHandler canReceive native) self out)
    (X : String) (first : Consumer) (hfirst : self.consumers.find X = some first)
    (publicListener : Nat) (params appData : Json)
    (hid : params.find "id" = some (Json.string X)) :
    (∃ e, (self.Consume (specRecvHandler canReceive native) out publicListener params
        appData).1 = .error e) ∧
    (self.Consume (specRecvHandler canReceive native) out publicListener params
        appData).2.1 = self ∧
    (self.Consume (specRecvHandler canReceive native) out publicListener params
        appData).2.1.consumers.find X = some first := by
  have hin : X ∈ out.world := hreach.registered_is_receiving X first hfirst
  rcases RecvTransport.Consume_cases (specRecvHandler canReceive native) self out
    publicListener params appData with ⟨hself, herr, -⟩ | ⟨id, kind, rtp, track,
      producerId, hsid, hrecv, -, -, -⟩
  · exact ⟨herr, hself, by rw [hself]; exact hfirst⟩
  · rw [Json.stringAt_of_find hid] at hsid
    cases hsid
    rw [specRecvHandler_Receive_duplicate _ _ _ _ _ _ hin] at hrecv
    cases hrecv

/-- Worked instance of C4: after one accepted Consume of "c1", a second Consume
of "c1" fails and "c1" still names the first Consumer. -/
theorem consume_duplicate_id_fails_witness :
    (∃ e, (demoAfterFirstConsume.2.1.Consume demoSpecHandler demoAfterFirstConsume.2.2 1
        (demoConsumerParameters "c1") (Json.string "again")).1 = .error e) ∧
    (demoAfterFirstConsume.2.1.Consume demoSpecHandler demoAfterFirstConsume.2.2 1
        (demoConsumerParameters "c1") (Json.string "again")).2.1
      = demoAfterFirstConsume.2.1 ∧
    (demoAfterFirstConsume.2.1.Consume demoSpecHandler demoAfterFirstConsume.2.2 1
        (demoConsumerParameters "c1") (Json.string "again")).2.1.consumers.find "c1"
      = some (Consumer.create 0 "c1" "producer-9" (some 5) (Json.object []) Json.null) :=
  consume_duplicate_id_fails (fun _ _ => .ok true) (fun _ _ _ => .ok (some 5))
    demoAfterFirstConsume.2.1 demoAfterFirstConsume.2.2
    (RecvReachable.consume _ _ 0 (demoConsumerParameters "c1") Json.null
      (RecvReachable.init (demoRecvTransport false).toTransport demoTracks rfl))
    "c1" (Consumer.create 0 "c1" "producer-9" (some 5) (Json.object []) Json.null) rfl
    1 (demoConsumerParameters "c1") (Json.string "again") rfl

/-- C6: on a closed RecvTransport, Consume throws "Invalid state" for every
remote-parameters value and leaves the transport, the collaborator state and
the call log as they were: `canReceive` is not evaluated, `Receive` is not
invoked, the consumer registry is unchanged. -/
theorem consume_on_closed_transport_fails {W : Type} (env : RecvCollaborators W)
    (self : RecvTransport) (out : Outside W) (publicListener : Nat)
    (params appData : Json) (hclosed : self.closed = true) :
    self.Consume env out publicListener params appData
      = (.error (.exception "Invalid state"), self, out) := by
  simp [RecvTransport.Consume, hclosed]

/-- Worked instance of C6: a closed transport and parameters that are not an
object. -/
theorem consume_on_closed_transport_fails_witness :
    (demoRecvTransport true).Consume (constRecv (.ok true) (.ok (some 5))) demoOutside 0
        (Json.number 3) Json.null
      = (.error (.exception "Invalid state"), demoRecvTransport true, demoOutside) :=
  consume_on_closed_transport_fails _ _ _ 0 (Json.number 3) Json.null rfl

/-- C9: on an open RecvTransport, remote parameters that are not an object, or
have no `id` member, or have no `producerId` member make Consume throw one of
the three "Missing consumerRemoteParameters" exceptions, and leave the
transport, the collaborator state and the call log as they were: `canReceive`
is not evaluated, `Receive` is not invoked, the consumer registry is unchanged. -/
theorem consume_missing_parameters_fails {W : Type} (env : RecvCollaborators W)
    (self : RecvTransport) (out : Outside W) (publicListener : Nat)
    (params appData : Json) (hopen : self.closed = false)
    (hmissing : params.is_object = false ∨ params.find "id" = none ∨
      params.find "producerId" = none) :
    ∃ message : String,
      (message = "Missing consumerRemoteParameters" ∨
       message = "Missing consumerRemoteParameters[\"id\"]" ∨
       message = "Missing consumerRemoteParameters[\"producerId\"]") ∧
      self.Consume env out publicListener params appData
        = (.error (.exception message), self, out) := by
  by_cases hobj : params.is_object = true
  swap
  · exact ⟨_, Or.inl rfl, by simp [RecvTransport.Consume, hopen, hobj]⟩
  cases hid : params.find "id" with
  | none => exact ⟨_, Or.inr (Or.inl rfl), by simp [RecvTransport.Consume, hopen, hobj, hid]⟩
  | some v =>
    have hpid : params.find "producerId" = none := by
      rcases hmissing with h | h | h
      · simp [hobj] at h
      · simp [hid] at h
      · exact h
    exact ⟨_, Or.inr (Or.inr rfl),
      by simp [RecvTransport.Consume, hopen, hobj, hid, hpid]⟩

/-- Worked instance of C9: parameters with an `id` but no `producerId`. -/
theorem consume_missing_parameters_fails_witness :
    ∃ message : String,
      (message = "Missing consumerRemoteParameters" ∨
       message = "Missing consumerRemoteParameters[\"id\"]" ∨
       message = "Missing consumerRemoteParameters[\"producerId\"]") ∧
      (demoRecvTransport false).Consume (constRecv (.ok true) (.ok (some 5))) demoOutside 0
          (Json.object [("id", Json.string "c1")]) Json.null
        = (.error (.exception message), demoRecvTransport false, demoOutside) :=
  consume_missing_parameters_fails (constRecv (.ok true) (.ok (some 5)))
    (demoRecvTransport false) demoOutside 0 (Json.object [("id", Json.string "c1")])
    Json.null rfl (Or.inr (Or.inr rfl))

/-- C11: when the argument checks of Produce pass and the handler's Send
returns rtpParameters, the calls Produce makes are Send, then OnProduce exactly
once, then at most a StopSending; the document given to OnProduce is the object
with the members `kind` (the kind of the track), `rtpParameters` (what Send
returned) and `appData` (the caller's appData), and no other member. -/
theorem produce_invokes_OnProduce_once {W : Type} (env : SendCollaborators W)
    (self : SendTransport) (out : Outside W) (publicListener : Nat) (track : TrackPtr)
    (simulcast : Json) (maxSpatialLayer : Fin 256) (appData : Json)
    (kind : String) (rtpParameters : Json)
    (hchecks : self.produceChecks out.tracks track simulcast maxSpatialLayer = .ok kind)
    (hsend : (env.Send out.world track simulcast).1 = .ok rtpParameters) :
    (∃ t, track = some t ∧ kind = (out.tracks t).kind) ∧
    ((self.Produce env out publicListener track simulcast maxSpatialLayer appData).2.2.calls
        = out.calls ++ [Call.Send track simulcast,
            Call.OnProduce (Json.object [("kind", Json.string kind),
              ("rtpParameters", rtpParameters), ("appData", appData)])] ∨
     (self.Produce env out publicListener track simulcast maxSpatialLayer appData).2.2.calls
        = out.calls ++ [Call.Send track simulcast,
            Call.OnProduce (Json.object [("kind", Json.string kind),
              ("rtpParameters", rtpParameters), ("appData", appData)]),
            Call.StopSending track]) := by
  refine ⟨SendTransport.produceChecks_kind _ _ _ _ _ _ hchecks, ?_⟩
  have hdoc : Json.object [("kind", Json.string kind), ("rtpParameters", rtpParameters),
      ("appData", appData)] = producerLocalParameters kind rtpParameters appData := rfl
  rw [hdoc]
  cases ha : (env.OnProduce (env.Send out.world track simulcast).2
      (producerLocalParameters kind rtpParameters appData)).1 with
  | error e =>
    cases e with
    | exception message =>
      right
      cases hst : (env.StopSending (env.OnProduce (env.Send out.world track simulcast).2
          (producerLocalParameters kind rtpParameters appData)).2 track).1 <;>
        simp [SendTransport.Produce, hchecks, hsend, ha, hst, Outside.after]
    | other what =>
      left
      simp [SendTransport.Produce, hchecks, hsend, ha, Outside.after]
  | ok producerRemoteParameters =>
    left
    cases hid : producerRemoteParameters.stringAt "id" <;>
      simp [SendTransport.Produce, hchecks, hsend, ha, hid, Outside.after]

/-- Worked instance of C11: the audio track 1 with appData "app". -/
theorem produce_invokes_OnProduce_once_witness :
    (∃ t, (some 1 : TrackPtr) = some t ∧ "audio" = (demoOutside.tracks t).kind) ∧
    (((demoSendTransport false).Produce echoSend demoOutside 0 (some 1) (Json.array []) 0
        (Json.string "app")).2.2.calls
        = demoOutside.calls ++ [Call.Send (some 1) (Json.array []),
            Call.OnProduce (Json.object [("kind", Json.string "audio"),
              ("rtpParameters", Json.object [("encodings", Json.array [])]),
              ("appData", Json.string "app")])] ∨
     ((demoSendTransport false).Produce echoSend demoOutside 0 (some 1) (Json.array []) 0
        (Json.string "app")).2.2.calls
        = demoOutside.calls ++ [Call.Send (some 1) (Json.array []),
            Call.OnProduce (Json.object [("kind", Json.string "audio"),
              ("rtpParameters", Json.object [("encodings", Json.array [])]),
              ("appData", Json.string "app")]),
            Call.StopSending (some 1)]) :=
  produce_invokes_OnProduce_once echoSend (demoSendTransport false) demoOutside 0 (some 1)
    (Json.array []) 0 (Json.string "app") "audio"
    (Json.object [("encodings", Json.array [])]) rfl rfl

/-- C12: when Consume returns a Consumer, its id and producerId are the string
members `id` and `producerId` of the remote parameters, its rtpParameters are
the remote parameters' `rtpParameters`, its appData is the caller's, its track
is what the handler's Receive returned, Receive having been called once, after
`canReceive`, with the remote id, kind and rtpParameters; the Consumer is not
closed and the consumer registry maps its id to it. -/
theorem consume_success_registers_consumer {W : Type} (env : RecvCollaborators W)
    (self : RecvTransport) (out : Outside W) (publicListener : Nat)
    (params appData : Json)
    (consumer : Consumer) (self' : RecvTransport) (out' : Outside W)
    (h : self.Consume env out publicListener params appData = (.ok consumer, self', out')) :
    params.find "id" = some (Json.string consumer.id) ∧
    params.find "producerId" = some (Json.string consumer.producerId) ∧
    params.atKey "rtpParameters" = .ok consumer.rtpParameters ∧
    consumer.appData = appData ∧
    (∃ kind, params.find "kind" = some (Json.string kind) ∧
      (env.Receive out.world consumer.id kind consumer.rtpParameters).1
        = .ok consumer.track ∧
      out'.calls = out.calls ++
        [Call.canReceive consumer.rtpParameters self.extendedRtpCapabilities,
         Call.Receive consumer.id kind consumer.rtpParameters]) ∧
    consumer.closed = false ∧
    self'.consumers.find consumer.id = some consumer := by
  unfold RecvTransport.Consume at h
  by_cases hclosed : self.closed = true
  · simp [hclosed] at h
  by_cases hobj : params.is_object = true
  swap
  · simp [hclosed, hobj] at h
  by_cases hid : (params.find "id").isNone = true
  · simp [hclosed, hobj, hid] at h
  by_cases hpid : (params.find "producerId").isNone = true
  · simp [hclosed, hobj, hid, hpid] at h
  simp only [hclosed, hobj, hid, hpid, Bool.not_true, Bool.false_eq_true, if_false] at h
  cases hrtp : params.atKey "rtpParameters" with
  | error e => simp [hrtp] at h
  | ok rtp =>
    cases hcan : env.canReceive rtp self.extendedRtpCapabilities with
    | error e => simp [hrtp, hcan] at h
    | ok b =>
      cases b with
      | false => simp [hrtp, hcan] at h
      | true =>
        cases hsid : params.stringAt "id" with
        | error e => simp [hrtp, hcan, hsid] at h
        | ok id =>
          cases hkind : params.stringAt "kind" with
          | error e => simp [hrtp, hcan, hsid, hkind] at h
          | ok kind =>
            cases hrecv : (env.Receive out.world id kind rtp).1 with
            | error e => simp [hrtp, hcan, hsid, hkind, hrecv, Outside.after] at h
            | ok track =>
              cases hprod : params.stringAt "producerId" with
              | error e => simp [hrtp, hcan, hsid, hkind, hrecv, hprod, Outside.after] at h
              | ok producerId =>
                simp only [hrtp, hcan, hsid, hkind, hrecv, hprod, Outside.after,
                  Prod.mk.injEq, Except.ok.injEq] at h
                obtain ⟨hc, hself, hout⟩ := h
                subst hc
                subst hself
                subst hout
                refine ⟨Json.find_of_stringAt hsid, Json.find_of_stringAt hprod, rfl, rfl,
                  ⟨kind, Json.find_of_stringAt hkind, hrecv, by simp [Consumer.create]⟩,
                  rfl, ?_⟩
                exact Registry.find_assign_self _ _ _

/-- Worked instance of C12: the Consumer "c1" on a fresh transport. -/
theorem consume_success_registers_consumer_witness :
    (demoConsumerParameters "c1").find "id" = some (Json.string "c1") ∧
    (demoConsumerParameters "c1").find "producerId" = some (Json.string "producer-9") ∧
    (demoConsumerParameters "c1").atKey "rtpParameters" = .ok (Json.object []) ∧
    Json.string "app" = Json.string "app" ∧
    (∃ kind, (demoConsumerParameters "c1").find "kind" = some (Json.string kind) ∧
      ((constRecv (.ok true) (.ok (some 5))).Receive demoOutside.world "c1" kind
        (Json.object [])).1 = .ok (some 5) ∧
      [Call.canReceive (Json.object []) Json.null,
        Call.Receive "c1" "audio" (Json.object [])]
        = demoOutside.calls ++
          [Call.canReceive (Json.object []) (demoRecvTransport false).extendedRtpCapabilities,
           Call.Receive "c1" kind (Json.object [])]) ∧
    false = false ∧
    (Registry.assign (demoRecvTransport false).consumers "c1"
        (Consumer.create 3 "c1" "producer-9" (some 5) (Json.object [])
          (Json.string "app"))).find "c1"
      = some (Consumer.create 3 "c1" "producer-9" (some 5) (Json.object [])
          (Json.string "app")) :=
  consume_success_registers_consumer (constRecv (.ok true) (.ok (some 5)))
    (demoRecvTransport false) demoOutside 3 (demoConsumerParameters "c1") (Json.string "app")
    (Consumer.create 3 "c1" "producer-9" (some 5) (Json.object []) (Json.string "app"))
    { demoRecvTransport false with
      consumers := Registry.assign (demoRecvTransport false).consumers "c1"
        (Consumer.create 3 "c1" "producer-9" (some 5) (Json.object [])
          (Json.string "app")) }
    { demoOutside with
      calls := [Call.canReceive (Json.object []) Json.null,
        Call.Receive "c1" "audio" (Json.object [])] }
    rfl

/-- C13: on a Device that is not loaded, GetRtpCapabilities throws "Not loaded"
and CanProduce throws "Not loaded" for every kind string; GetRtpCapabilities
is a const method and CanProduce returns the Device as it was. -/
theorem device_not_loaded_fails (self : Device) (hnot : self.loaded = false) :
    self.GetRtpCapabilities = .error (.exception "Not loaded") ∧
    ∀ kind : String, self.CanProduce kind = (.error (.exception "Not loaded"), self) := by
  refine ⟨by simp [Device.GetRtpCapabilities, hnot], ?_⟩
  intro kind
  simp [Device.CanProduce, hnot]

/-- Worked instance of C13: the freshly constructed Device, asked for "audio"
and for "chicken". -/
theorem device_not_loaded_fails_witness :
    Device.new.GetRtpCapabilities = .error (.exception "Not loaded") ∧
    Device.new.CanProduce "audio" = (.error (.exception "Not loaded"), Device.new) ∧
    Device.new.CanProduce "chicken" = (.error (.exception "Not loaded"), Device.new) :=
  ⟨(device_not_loaded_fails Device.new rfl).1,
   (device_not_loaded_fails Device.new rfl).2 "audio",
   (device_not_loaded_fails Device.new rfl).2 "chicken"⟩

/-- C14: on a loaded Device, CanProduce throws "Invalid kind" exactly for the
kinds other than "audio" and "video"; for "audio" and "video" it returns the
flag stored for that kind and the Device is as before. -/
theorem device_CanProduce_invalid_kind_iff (self : Device) (hloaded : self.loaded = true) :
    (∀ kind : String,
      (self.CanProduce kind).1 = .error (.exception "Invalid kind")
        ↔ (kind ≠ "audio" ∧ kind ≠ "video")) ∧
    (∀ (kind : String) (flag : Bool), kind = "audio" ∨ kind = "video" →
      self.canProduceByKind.find kind = some flag →
      self.CanProduce kind = (.ok flag, self)) := by
  refine ⟨?_, ?_⟩
  · intro kind
    by_cases hk : kind ≠ "audio" ∧ kind ≠ "video"
    · simp [Device.CanProduce, hloaded, hk]
    · simp only [Device.CanProduce, hloaded, hk, Bool.not_true, Bool.false_eq_true,
        if_false, iff_false]
      intro h
      cases h
  · intro kind flag hkind hflag
    exact Device.CanProduce_stored self kind flag hloaded hkind hflag

/-- Worked instance of C14: the Device loaded with an audio-only advertisement. -/
theorem device_CanProduce_invalid_kind_iff_witness :
    ((demoLoadedDevice.CanProduce "chicken").1 = .error (.exception "Invalid kind")
      ↔ ("chicken" ≠ "audio" ∧ "chicken" ≠ "video")) ∧
    demoLoadedDevice.CanProduce "audio" = (.ok true, demoLoadedDevice) ∧
    demoLoadedDevice.CanProduce "video" = (.ok false, demoLoadedDevice) :=
  ⟨(device_CanProduce_invalid_kind_iff demoLoadedDevice rfl).1 "chicken",
   (device_CanProduce_invalid_kind_iff demoLoadedDevice rfl).2 "audio" true (Or.inl rfl) rfl,
   (device_CanProduce_invalid_kind_iff demoLoadedDevice rfl).2 "video" false (Or.inr rfl)
     rfl⟩

/-- C15 as stated fails: a loaded Device asked whether it can produce the kind
"chicken" throws "Invalid kind". -/
theorem device_CanProduce_throws_when_loaded :
    demoLoadedDevice.loaded = true ∧
    demoLoadedDevice.CanProduce "chicken"
      = (.error (.exception "Invalid kind"), demoLoadedDevice) :=
  ⟨rfl, rfl⟩

/-- C15, amended: in every state of a Device in which it is loaded, CanProduce
does not throw for the kinds "audio" and "video"; it returns true if and only
if at least one codec of that kind survived negotiation, false otherwise, and
the Device is as before. -/
theorem device_CanProduce_tells_surviving_codec
    (computeExtended : Json → Except Error Json) (deriveRecv : Json → Json)
    (self : Device) (hreach : DeviceReachable computeExtended deriveRecv self)
    (hloaded : self.loaded = true) (kind : String)
    (hkind : kind = "audio" ∨ kind = "video") :
    ∃ flag : Bool, self.CanProduce kind = (.ok flag, self) ∧
      (flag = true ↔ ∃ codec, codec ∈ survivingCodecs kind self.extendedRtpCapabilities) := by
  have hflags := hreach.flags.2 hloaded
  have hlist : ∀ l : List Json, ((!l.isEmpty) = true ↔ ∃ codec, codec ∈ l) := by
    intro l
    cases l with
    | nil => simp
    | cons x rest => simp
  rcases hkind with h | h
  · subst h
    exact ⟨_, Device.CanProduce_stored self _ _ hloaded (Or.inl rfl) hflags.1, hlist _⟩
  · subst h
    exact ⟨_, Device.CanProduce_stored self _ _ hloaded (Or.inr rfl) hflags.2, hlist _⟩

/-- Worked instance of C15 amended: after loading the audio-only advertisement,
"audio" is answered without a throw. -/
theorem device_CanProduce_tells_surviving_codec_witness :
    ∃ flag : Bool, demoLoadedDevice.CanProduce "audio" = (.ok flag, demoLoadedDevice) ∧
      (flag = true ↔
        ∃ codec, codec ∈ survivingCodecs "audio" demoLoadedDevice.extendedRtpCapabilities) :=
  device_CanProduce_tells_surviving_codec demoComputeExtended (fun extended => extended)
    demoLoadedDevice (DeviceReachable.load Device.new demoRouterCapabilities
      DeviceReachable.new) rfl "audio" (Or.inl rfl)

/-- C16: Load on a Device that is already loaded throws the already-loaded
error for every argument and leaves the Device (its loaded flag and stored
capabilities) as it was; a Load that returns leaves the Device loaded, so every
further Load, whatever its argument, fails that way. -/
theorem device_Load_once (computeExtended : Json → Except Error Json)
    (deriveRecv : Json → Json) (self : Device) (routerRtpCapabilities : Json) :
    (self.loaded = true →
      self.Load computeExtended deriveRecv routerRtpCapabilities
        = (.error (.exception "AlreadyLoaded"), self)) ∧
    ((self.Load computeExtended deriveRecv routerRtpCapabilities).1 = .ok () →
      (self.Load computeExtended deriveRecv routerRtpCapabilities).2.loaded = true ∧
      ∀ again : Json,
        (self.Load computeExtended deriveRecv routerRtpCapabilities).2.Load
            computeExtended deriveRecv again
          = (.error (.exception "AlreadyLoaded"),
             (self.Load computeExtended deriveRecv routerRtpCapabilities).2)) := by
  have hfirst : ∀ (d : Device) (r : Json), d.loaded = true →
      d.Load computeExtended deriveRecv r = (.error (.exception "AlreadyLoaded"), d) := by
    intro d r hl
    simp [Device.Load, hl]
  refine ⟨hfirst self routerRtpCapabilities, ?_⟩
  intro hok
  have hl : (self.Load computeExtended deriveRecv routerRtpCapabilities).2.loaded = true := by
    by_cases hs : self.loaded = true
    · rw [hfirst self routerRtpCapabilities hs] at hok
      cases hok
    · cases hc : computeExtended routerRtpCapabilities with
      | error e => simp [Device.Load, hs, hc] at hok
      | ok extended => simp [Device.Load, hs, hc]
  exact ⟨hl, fun again => hfirst _ again hl⟩

/-- Worked instance of C16: loading the loaded Device again, with another
argument. -/
theorem device_Load_once_witness :
    demoLoadedDevice.Load demoComputeExtended (fun extended => extended) Json.null
      = (.error (.exception "AlreadyLoaded"), demoLoadedDevice) :=
  (device_Load_once demoComputeExtended (fun extended => extended) demoLoadedDevice
    Json.null).1 rfl

/-- C17: a closed Consumer's GetStats throws "Invalid state" whatever its
listener is (the listener is not consulted); an open Consumer's GetStats is the
result of its listener's OnGetStats for that Consumer.  The listener being a
RecvTransport, OnGetStats throws "Invalid state" when the transport is closed,
without a handler call, and otherwise calls the handler's GetReceiverStats
once with the Consumer's id and returns what it returns. -/
theorem consumer_GetStats_delegates {S W : Type}
    (listenerOnGetStats : S → Consumer → Except Error Json × S) (s : S)
    (GetReceiverStats : W → String → Except Error Json × W)
    (transport : RecvTransport) (out : Outside W) (consumer : Consumer) :
    (consumer.closed = true →
      consumer.GetStats listenerOnGetStats s = (.error (.exception "Invalid state"), s)) ∧
    (consumer.closed = false →
      consumer.GetStats listenerOnGetStats s = listenerOnGetStats s consumer) ∧
    (transport.closed = true →
      transport.OnGetStats GetReceiverStats out consumer
        = (.error (.exception "Invalid state"), out)) ∧
    (transport.closed = false →
      transport.OnGetStats GetReceiverStats out consumer
        = ((GetReceiverStats out.world consumer.id).1,
           { out with world := (GetReceiverStats out.world consumer.id).2,
                      calls := out.calls ++ [Call.GetReceiverStats consumer.id] })) := by
  refine ⟨?_, ?_, ?_, ?_⟩
  · intro h
    simp [Consumer.GetStats, h]
  · intro h
    simp [Consumer.GetStats, h]
  · intro h
    simp [RecvTransport.OnGetStats, h]
  · intro h
    simp [RecvTransport.OnGetStats, h, Outside.after]

/-- Worked instance of C17: a closed Consumer of an open transport, and an open
Consumer whose listener is that transport. -/
theorem consumer_GetStats_delegates_witness :
    (demoConsumer true).GetStats
        ((demoRecvTransport false).OnGetStats (fun w _ => (.ok (Json.array []), w)))
        demoOutside
      = (.error (.exception "Invalid state"), demoOutside) ∧
    (demoConsumer false).GetStats
        ((demoRecvTransport false).OnGetStats (fun w _ => (.ok (Json.array []), w)))
        demoOutside
      = (.ok (Json.array []),
         { demoOutside with calls := [Call.GetReceiverStats "c1"] }) :=
  ⟨(consumer_GetStats_delegates
      ((demoRecvTransport false).OnGetStats (fun w _ => (.ok (Json.array []), w)))
      demoOutside (fun w _ => (.ok (Json.array []), w)) (demoRecvTransport false)
      demoOutside (demoConsumer true)).1 rfl,
   ((consumer_GetStats_delegates
      ((demoRecvTransport false).OnGetStats (fun w _ => (.ok (Json.array []), w)))
      demoOutside (fun w _ => (.ok (Json.array []), w)) (demoRecvTransport false)
      demoOutside (demoConsumer false)).2.1 rfl).trans
    ((consumer_GetStats_delegates
      ((demoRecvTransport false).OnGetStats (fun w _ => (.ok (Json.array []), w)))
      demoOutside (fun w _ => (.ok (Json.array []), w)) (demoRecvTransport false)
      demoOutside (demoConsumer false)).2.2.2 rfl)⟩

/-- C18: OnConnect on a closed Transport throws "Invalid state", the listener
not being invoked and the parameters left alone.  On an open Transport, given
an object as local connection parameters, it sets the member `id` to the
Transport's id (overwriting one that is there, every other member as before),
invokes the listener's OnConnect exactly once, with those parameters, and
returns or throws as the listener does. -/
theorem transport_OnConnect_sets_id {W : Type}
    (listenerOnConnect : W → Json → Except Error Unit × W)
    (self : Transport) (out : Outside W) :
    (self.closed = true → ∀ parameters : Json,
      self.OnConnect listenerOnConnect out parameters
        = (.error (.exception "Invalid state"), parameters, out)) ∧
    (self.closed = false → ∀ members : List (String × Json),
      self.OnConnect listenerOnConnect out (Json.object members)
        = ((listenerOnConnect out.world
              (Json.object (Json.assignMember "id" (Json.string self.id) members))).1,
           Json.object (Json.assignMember "id" (Json.string self.id) members),
           { out with
             world := (listenerOnConnect out.world
               (Json.object (Json.assignMember "id" (Json.string self.id) members))).2,
             calls := out.calls ++ [Call.OnConnect
               (Json.object (Json.assignMember "id" (Json.string self.id) members))] }) ∧
      (Json.object (Json.assignMember "id" (Json.string self.id) members)).find "id"
        = some (Json.string self.id) ∧
      ∀ key : String, key ≠ "id" →
        (Json.object (Json.assignMember "id" (Json.string self.id) members)).find key
          = (Json.object members).find key) := by
  refine ⟨?_, ?_⟩
  · intro h parameters
    simp [Transport.OnConnect, h]
  · intro h members
    refine ⟨by simp [Transport.OnConnect, h, Json.setKey, Outside.after], ?_, ?_⟩
    · exact Json.lookup_assignMember_self _ _ _
    · intro key hkey
      exact Json.lookup_assignMember_ne _ _ _ hkey _

/-- Worked instance of C18: parameters that carry a stale id and the DTLS
parameters, on the open transport "transport-2". -/
theorem transport_OnConnect_sets_id_witness :
    (demoRecvTransport false).toTransport.OnConnect (fun w _ => (.ok (), w)) demoOutside
        (Json.object [("id", Json.string "stale"), ("dtlsParameters", Json.object [])])
      = (.ok (),
         Json.object [("id", Json.string "transport-2"), ("dtlsParameters", Json.object [])],
         { demoOutside with
           calls := [Call.OnConnect (Json.object [("id", Json.string "transport-2"),
             ("dtlsParameters", Json.object [])])] }) :=
  ((transport_OnConnect_sets_id (fun w _ => (.ok (), w))
      (demoRecvTransport false).toTransport demoOutside).2 rfl
    [("id", Json.string "stale"), ("dtlsParameters", Json.object [])]).1

/-- C19 as stated fails: on the live video track 2, with a handler that answers
one encoding per simulcast entry it is given, the one-entry array and the empty
array lead to different `Send` calls and to different Producers. -/
theorem produce_single_entry_differs_from_empty :
    ((demoSendTransport false).Produce echoSend demoOutside 0 (some 2)
        (Json.array [Json.object [("maxBitrate", Json.number 100000)]]) 0 Json.null).2.2.calls
      = [Call.Send (some 2) (Json.array [Json.object [("maxBitrate", Json.number 100000)]]),
         Call.OnProduce (producerLocalParameters "video"
           (Json.object [("encodings",
             Json.array [Json.object [("maxBitrate", Json.number 100000)]])]) Json.null)] ∧
    ((demoSendTransport false).Produce echoSend demoOutside 0 (some 2)
        (Json.array []) 0 Json.null).2.2.calls
      = [Call.Send (some 2) (Json.array []),
         Call.OnProduce (producerLocalParameters "video"
           (Json.object [("encodings", Json.array [])]) Json.null)] ∧
    ((demoSendTransport false).Produce echoSend demoOutside 0 (some 2)
        (Json.array [Json.object [("maxBitrate", Json.number 100000)]]) 0 Json.null).1
      ≠ ((demoSendTransport false).Produce echoSend demoOutside 0 (some 2)
        (Json.array []) 0 Json.null).1 := by
  refine ⟨rfl, rfl, ?_⟩
  show (Except.ok (Producer.mk 0 "p1" (some 2)
      (Json.object [("encodings",
        Json.array [Json.object [("maxBitrate", Json.number 100000)]])]) 0 Json.null)
      : Except Error Producer)
    ≠ Except.ok (Producer.mk 0 "p1" (some 2)
      (Json.object [("encodings", Json.array [])]) 0 Json.null)
  intro h
  simp at h

/-- C19, amended: on an open SendTransport and a live video track, a
one-element simulcast array passes the argument checks exactly as the empty
array does (its entry is not inspected) and reaches the handler's Send, which
receives the one-element array itself; whenever Send answers the two arrays
alike, Produce returns the same result, leaves the same transport and
collaborator state, and makes the same calls after Send. -/
theorem produce_single_entry_like_empty {W : Type} (env : SendCollaborators W)
    (self : SendTransport) (out : Outside W) (publicListener : Nat) (t : Nat)
    (entry : Json) (maxSpatialLayer : Fin 256) (appData : Json)
    (hopen : self.closed = false)
    (hlive : (out.tracks t).state ≠ TrackState.kEnded)
    (hvideo : (out.tracks t).kind = "video") :
    self.produceChecks out.tracks (some t) (Json.array [entry]) maxSpatialLayer
      = .ok "video" ∧
    self.produceChecks out.tracks (some t) (Json.array []) maxSpatialLayer = .ok "video" ∧
    (env.Send out.world (some t) (Json.array [entry])
        = env.Send out.world (some t) (Json.array []) →
      (self.Produce env out publicListener (some t) (Json.array [entry]) maxSpatialLayer
          appData).1
        = (self.Produce env out publicListener (some t) (Json.array []) maxSpatialLayer
          appData).1 ∧
      (self.Produce env out publicListener (some t) (Json.array [entry]) maxSpatialLayer
          appData).2.1
        = (self.Produce env out publicListener (some t) (Json.array []) maxSpatialLayer
          appData).2.1 ∧
      (self.Produce env out publicListener (some t) (Json.array [entry]) maxSpatialLayer
          appData).2.2.world
        = (self.Produce env out publicListener (some t) (Json.array []) maxSpatialLayer
          appData).2.2.world ∧
      ∃ rest : List Call,
        (self.Produce env out publicListener (some t) (Json.array [entry]) maxSpatialLayer
            appData).2.2.calls
          = out.calls ++ Call.Send (some t) (Json.array [entry]) :: rest ∧
        (self.Produce env out publicListener (some t) (Json.array []) maxSpatialLayer
            appData).2.2.calls
          = out.calls ++ Call.Send (some t) (Json.array []) :: rest) := by
  have h1 : self.produceChecks out.tracks (some t) (Json.array [entry]) maxSpatialLayer
      = .ok "video" := by
    simp [SendTransport.produceChecks, hopen, hlive, hvideo, Json.is_array, Json.size]
  have h0 : self.produceChecks out.tracks (some t) (Json.array []) maxSpatialLayer
      = .ok "video" := by
    simp [SendTransport.produceChecks, hopen, hlive, hvideo, Json.is_array, Json.size]
  refine ⟨h1, h0, ?_⟩
  intro hsame
  cases hs : (env.Send out.world (some t) (Json.array [])).1 with
  | error e =>
    refine ⟨?_, ?_, ?_, [], ?_, ?_⟩ <;>
      simp [SendTransport.Produce, h1, h0, hsame, hs, Outside.after]
  | ok rtpParameters =>
    cases ha : (env.OnProduce (env.Send out.world (some t) (Json.array [])).2
        (producerLocalParameters "video" rtpParameters appData)).1 with
    | error e =>
      cases e with
      | exception message =>
        cases hst : (env.StopSending (env.OnProduce
            (env.Send out.world (some t) (Json.array [])).2
            (producerLocalParameters "video" rtpParameters appData)).2 (some t)).1 <;>
          refine ⟨?_, ?_, ?_,
            [Call.OnProduce (producerLocalParameters "video" rtpParameters appData),
             Call.StopSending (some t)], ?_, ?_⟩ <;>
          simp [SendTransport.Produce, h1, h0, hsame, hs, ha, hst, Outside.after]
      | other what =>
        refine ⟨?_, ?_, ?_,
          [Call.OnProduce (producerLocalParameters "video" rtpParameters appData)],
          ?_, ?_⟩ <;>
          simp [SendTransport.Produce, h1, h0, hsame, hs, ha, Outside.after]
    | ok producerRemoteParameters =>
      cases hid : producerRemoteParameters.stringAt "id" <;>
        refine ⟨?_, ?_, ?_,
          [Call.OnProduce (producerLocalParameters "video" rtpParameters appData)],
          ?_, ?_⟩ <;>
        simp [SendTransport.Produce, h1, h0, hsame, hs, ha, hid, Outside.after]

/-- Worked instance of C19 amended: a handler that ignores the simulcast value. -/
theorem produce_single_entry_like_empty_witness :
    ((demoSendTransport false).Produce
        (constSend (.ok Json.null) (.ok (Json.object [("id", Json.string "p1")])) (.ok ()))
        demoOutside 0 (some 2) (Json.array [Json.object []]) 0 Json.null).1
      = ((demoSendTransport false).Produce
        (constSend (.ok Json.null) (.ok (Json.object [("id", Json.string "p1")])) (.ok ()))
        demoOutside 0 (some 2) (Json.array []) 0 Json.null).1 :=
  ((produce_single_entry_like_empty
      (constSend (.ok Json.null) (.ok (Json.object [("id", Json.string "p1")])) (.ok ()))
      (demoSendTransport false) demoOutside 0 2 (Json.object []) 0 Json.null rfl
      (by decide) rfl).2.2 rfl).1

/-- C20: the close notification of a Producer removes the Producer's id from
the producer registry and leaves every other id mapped as before; on a closed
SendTransport nothing else happens (StopSending is not called), on an open one
StopSending is called once, on the Producer's track, and its outcome is the
outcome of the notification. -/
theorem sendTransport_OnClose_removes_producer {W : Type} (env : SendCollaborators W)
    (self : SendTransport) (out : Outside W) (producer : Producer) :
    (self.OnClose env out producer).2.1.producers.find producer.id = none ∧
    (∀ other : String, other ≠ producer.id →
      (self.OnClose env out producer).2.1.producers.find other
        = self.producers.find other) ∧
    (self.closed = true →
      (self.OnClose env out producer).1 = .ok () ∧
      (self.OnClose env out producer).2.2 = out) ∧
    (self.closed = false →
      (self.OnClose env out producer).1 = (env.StopSending out.world producer.track).1 ∧
      (self.OnClose env out producer).2.2.calls
        = out.calls ++ [Call.StopSending producer.track]) := by
  have hreg : (self.OnClose env out producer).2.1.producers
      = self.producers.erase producer.id := by
    by_cases h : self.closed = true <;> simp [SendTransport.OnClose, h]
  refine ⟨?_, ?_, ?_, ?_⟩
  · rw [hreg]
    exact Registry.find_erase_self _ _
  · intro other hne
    rw [hreg]
    exact Registry.find_erase_ne _ _ _ hne
  · intro h
    simp [SendTransport.OnClose, h]
  · intro h
    simp [SendTransport.OnClose, h, Outside.after]

/-- Worked instance of C20: the Producer "p1" closes on an open transport that
has it registered. -/
theorem sendTransport_OnClose_removes_producer_witness :
    (SendTransport.OnClose (constSend (.ok Json.null) (.ok Json.null) (.ok ()))
        { demoSendTransport false with
          producers := Registry.assign Registry.empty "p1" demoProducer }
        demoOutside demoProducer).2.1.producers.find "p1" = none ∧
    (SendTransport.OnClose (constSend (.ok Json.null) (.ok Json.null) (.ok ()))
        { demoSendTransport false with
          producers := Registry.assign Registry.empty "p1" demoProducer }
        demoOutside demoProducer).2.2.calls
      = demoOutside.calls ++ [Call.StopSending (some 1)] :=
  ⟨(sendTransport_OnClose_removes_producer
      (constSend (.ok Json.null) (.ok Json.null) (.ok ()))
      { demoSendTransport false with
        producers := Registry.assign Registry.empty "p1" demoProducer }
      demoOutside demoProducer).1,
   ((sendTransport_OnClose_removes_producer
      (constSend (.ok Json.null) (.ok Json.null) (.ok ()))
      { demoSendTransport false with
        producers := Registry.assign Registry.empty "p1" demoProducer }
      demoOutside demoProducer).2.2.2 rfl).2⟩

/-- C21: the close notification of a Consumer removes the Consumer's id from
the consumer registry and leaves every other id mapped as before; on a closed
RecvTransport nothing else happens (StopReceiving is not called), on an open
one StopReceiving is called once, with the Consumer's id, and its outcome is
the outcome of the notification. -/
theorem recvTransport_OnClose_removes_consumer {W : Type} (env : RecvCollaborators W)
    (self : RecvTransport) (out : Outside W) (consumer : Consumer) :
    (self.OnClose env out consumer).2.1.consumers.find consumer.id = none ∧
    (∀ other : String, other ≠ consumer.id →
      (self.OnClose env out consumer).2.1.consumers.find other
        = self.consumers.find other) ∧
    (self.closed = true →
      (self.OnClose env out consumer).1 = .ok () ∧
      (self.OnClose env out consumer).2.2 = out) ∧
    (self.closed = false →
      (self.OnClose env out consumer).1 = (env.StopReceiving out.world consumer.id).1 ∧
      (self.OnClose env out consumer).2.2.calls
        = out.calls ++ [Call.StopReceiving consumer.id]) := by
  have hreg : (self.OnClose env out consumer).2.1.consumers
      = self.consumers.erase consumer.id := by
    by_cases h : self.closed = true <;> simp [RecvTransport.OnClose, h]
  refine ⟨?_, ?_, ?_, ?_⟩
  · rw [hreg]
    exact Registry.find_erase_self _ _
  · intro other hne
    rw [hreg]
    exact Registry.find_erase_ne _ _ _ hne
  · intro h
    simp [RecvTransport.OnClose, h]
  · intro h
    simp [RecvTransport.OnClose, h, Outside.after]

/-- Worked instance of C21: the Consumer "c1" closes on an open transport that
has it registered. -/
theorem recvTransport_OnClose_removes_consumer_witness :
    (demoRecvTransportWithConsumer.OnClose (constRecv (.ok true) (.ok (some 5)))
        demoOutside (demoConsumer false)).2.1.consumers.find "c1" = none ∧
    (demoRecvTransportWithConsumer.OnClose (constRecv (.ok true) (.ok (some 5)))
        demoOutside (demoConsumer false)).2.2.calls
      = demoOutside.calls ++ [Call.StopReceiving "c1"] :=
  ⟨(recvTransport_OnClose_removes_consumer (constRecv (.ok true) (.ok (some 5)))
      demoRecvTransportWithConsumer demoOutside (demoConsumer false)).1,
   ((recvTransport_OnClose_removes_consumer (constRecv (.ok true) (.ok (some 5)))
      demoRecvTransportWithConsumer demoOutside (demoConsumer false)).2.2.2 rfl).2⟩

/-- C22: for a Consumer bound to a track, IsPaused returns the negation of the
track's enabled state, whatever the Consumer's stored paused field and closed
flag are; so it is true once the track has been disabled and false once the
track has been enabled. -/
theorem consumer_IsPaused_reads_track (consumer : Consumer)
    (tracks : Nat → MediaStreamTrack) (t : Nat) (htrack : consumer.track = some t) :
    consumer.IsPaused tracks = some (!(tracks t).enabled) ∧
    (∀ paused closed : Bool,
      Consumer.IsPaused { consumer with paused := paused, closed := closed } tracks
        = some (!(tracks t).enabled)) ∧
    consumer.IsPaused (set_enabled tracks t false) = some true ∧
    consumer.IsPaused (set_enabled tracks t true) = some false := by
  refine ⟨?_, ?_, ?_, ?_⟩
  · simp [Consumer.IsPaused, htrack]
  · intro paused closed
    simp [Consumer.IsPaused, htrack]
  · simp [Consumer.IsPaused, htrack, set_enabled]
  · simp [Consumer.IsPaused, htrack, set_enabled]

/-- Worked instance of C22: the Consumer "c1" on track 5, which is enabled. -/
theorem consumer_IsPaused_reads_track_witness :
    (demoConsumer false).IsPaused demoTracks = some false ∧
    (demoConsumer true).IsPaused (set_enabled demoTracks 5 false) = some true :=
  ⟨(consumer_IsPaused_reads_track (demoConsumer false) demoTracks 5 rfl).1,
   (consumer_IsPaused_reads_track (demoConsumer true) demoTracks 5 rfl).2.2.1⟩

/-- C23 as stated fails: a codec whose native feedback list holds NACK without
a message type and NACK with GENERIC_NACK has no two entries with the same
(type, message type), yet both entries are emitted as the descriptor
`\x7b"type": "nack"\x7d`. -/
theorem rtcpFeedback_duplicate_descriptors :
    (demoNackTwiceCodec.rtcp_feedback.map (fun f => (f.type, f.message_type))).Nodup ∧
    webrtcRtpCapabilities2Json MediaType.MEDIA_TYPE_VIDEO
        { codecs := [demoNackTwiceCodec], header_extensions := [] } Json.null
      = (.ok (), Json.object [("codecs", Json.array [Json.object
          [("name", Json.string "VP8"), ("mimeType", Json.string "video/VP8"),
           ("kind", Json.string "video"), ("clockRate", Json.number 90000),
           ("preferredPayloadType", Json.number 101),
           ("rtcpFeedback", Json.array
             [Json.object [("type", Json.string "nack")],
              Json.object [("type", Json.string "nack")]]),
           ("parameters", Json.object [])]])]) ∧
    descriptorPair (Json.object [("type", Json.string "nack")])
      = descriptorPair (Json.object [("type", Json.string "nack")]) ∧
    ¬ List.Pairwise (fun d e => descriptorPair d ≠ descriptorPair e)
        (rtcpFeedbackList demoNackTwiceCodec.rtcp_feedback) := by
  refine ⟨by decide, ?_, rfl, ?_⟩
  · simp [webrtcRtpCapabilities2Json, pushCodecs, pushHeaderExtensions, codec2Json,
      demoNackTwiceCodec, MediaTypeToString, RtpCodecCapability.mime_type,
      rtcpFeedbackList, rtcpFeedbackJson, rtcpFeedbackTypeString,
      rtcpFeedbackMessageTypeString, codecParameters, Json.pushBackAt, Json.atKey,
      Json.push_back, Json.setKey]
  · intro h
    simp [rtcpFeedbackList, rtcpFeedbackJson, rtcpFeedbackTypeString,
      rtcpFeedbackMessageTypeString, demoNackTwiceCodec] at h

/-- C23, amended: for an audio or video conversion, whatever the `capabilities`
document and the native codec list are, the codecs of kind audio or video are
converted in order up to the first failure, all of them when the call returns,
and what the member `codecs` of the document gains are exactly the codec
documents of the converted ones; each of these documents carries as
`rtcpFeedback` the converted feedback list of its codec, and if that codec's
feedback list has no two entries with the same type and, an absent message type
counting as GENERIC_NACK, the same message type, the emitted list has no two
descriptors with the same (type, parameter) pair.  The call returns on every
object whose members `codecs` and `headerExtensions` are arrays when each of
those codecs has a clock rate and a payload type. -/
theorem rtcpFeedback_descriptors_distinct (type : MediaType)
    (nativeCapabilities : RtpCapabilities) (capabilities : Json)
    (htype : type = MediaType.MEDIA_TYPE_AUDIO ∨ type = MediaType.MEDIA_TYPE_VIDEO) :
    (∃ (converted remaining : List RtpCodecCapability) (emitted : List Json),
      keptCodecs nativeCapabilities.codecs = converted ++ remaining ∧
      ((webrtcRtpCapabilities2Json type nativeCapabilities capabilities).1 = .ok () →
        remaining = []) ∧
      (webrtcRtpCapabilities2Json type nativeCapabilities capabilities).2.memberElements
          "codecs"
        = capabilities.memberElements "codecs" ++ emitted ∧
      List.Forall₂
        (fun nativeCodec codec =>
          codec2Json (MediaTypeToString type) nativeCodec = .ok codec ∧
          codec.find "rtcpFeedback"
            = some (Json.array (rtcpFeedbackList nativeCodec.rtcp_feedback)) ∧
          (nativeCodec.rtcp_feedback.Pairwise
              (fun a b => feedbackPair a ≠ feedbackPair b) →
            (rtcpFeedbackList nativeCodec.rtcp_feedback).Pairwise
              (fun d e => descriptorPair d ≠ descriptorPair e)))
        converted emitted) ∧
    (∀ (members : List (String × Json)) (existing existingExtensions : List Json),
      capabilities = Json.object members →
      Json.lookup "codecs" members = some (Json.array existing) →
      Json.lookup "headerExtensions" members = some (Json.array existingExtensions) →
      (∀ nativeCodec ∈ keptCodecs nativeCapabilities.codecs,
        nativeCodec.clock_rate.isSome = true ∧
        nativeCodec.preferred_payload_type.isSome = true) →
      (webrtcRtpCapabilities2Json type nativeCapabilities capabilities).1 = .ok ()) := by
  have htype' : ¬ (type ≠ MediaType.MEDIA_TYPE_AUDIO ∧ type ≠ MediaType.MEDIA_TYPE_VIDEO) := by
    rcases htype with h | h <;> simp [h]
  refine ⟨?_, ?_⟩
  · obtain ⟨converted, remaining, emitted, hkept, hall, hmem, hdocs⟩ :=
      pushCodecs_emits (MediaTypeToString type) nativeCapabilities.codecs capabilities
    refine ⟨converted, remaining, emitted, hkept, ?_, ?_, ?_⟩
    · intro hok
      apply hall
      rcases hpc : pushCodecs (MediaTypeToString type) nativeCapabilities.codecs
        capabilities with ⟨outcome, pushed⟩
      cases outcome with
      | error e => simp [webrtcRtpCapabilities2Json, htype', hpc] at hok
      | ok u => rfl
    · rcases hpc : pushCodecs (MediaTypeToString type) nativeCapabilities.codecs
        capabilities with ⟨outcome, pushed⟩
      rw [hpc] at hmem
      cases outcome with
      | error e => simpa [webrtcRtpCapabilities2Json, htype', hpc] using hmem
      | ok u =>
        simp only [webrtcRtpCapabilities2Json, htype', hpc, if_false]
        rw [pushHeaderExtensions_memberElements _ _ "codecs" (by decide)]
        exact hmem
    · exact hdocs.imp (fun nativeCodec codec hcodec =>
        ⟨hcodec, codec2Json_rtcpFeedback _ _ _ hcodec,
          rtcpFeedbackList_pairwise nativeCodec.rtcp_feedback⟩)
  · intro members existing existingExtensions hobject hcodecs hextensions hvalues
    subst hobject
    obtain ⟨pushed, all, hrun, -, hother⟩ :=
      pushCodecs_returns (MediaTypeToString type) nativeCapabilities.codecs hvalues
        members existing hcodecs
    simp only [webrtcRtpCapabilities2Json, htype', hrun, if_false]
    exact pushHeaderExtensions_returns _ _ pushed existingExtensions
      (by rw [hother "headerExtensions" (by decide)]; exact hextensions)

/-- Worked instance of C23 amended: the video call of GetNativeRtpCapabilities
on its pre-filled document, with VP8, a skipped data codec, RTX and one header
extension. -/
theorem rtcpFeedback_descriptors_distinct_witness :
    (∃ (converted remaining : List RtpCodecCapability) (emitted : List Json),
      keptCodecs demoVideoCapabilities.codecs = converted ++ remaining ∧
      ((webrtcRtpCapabilities2Json MediaType.MEDIA_TYPE_VIDEO demoVideoCapabilities
          nativeCapabilitiesDocument).1 = .ok () → remaining = []) ∧
      (webrtcRtpCapabilities2Json MediaType.MEDIA_TYPE_VIDEO demoVideoCapabilities
          nativeCapabilitiesDocument).2.memberElements "codecs"
        = nativeCapabilitiesDocument.memberElements "codecs" ++ emitted ∧
      List.Forall₂
        (fun nativeCodec codec =>
          codec2Json (MediaTypeToString MediaType.MEDIA_TYPE_VIDEO) nativeCodec = .ok codec ∧
          codec.find "rtcpFeedback"
            = some (Json.array (rtcpFeedbackList nativeCodec.rtcp_feedback)) ∧
          (nativeCodec.rtcp_feedback.Pairwise
              (fun a b => feedbackPair a ≠ feedbackPair b) →
            (rtcpFeedbackList nativeCodec.rtcp_feedback).Pairwise
              (fun d e => descriptorPair d ≠ descriptorPair e)))
        converted emitted) ∧
    (webrtcRtpCapabilities2Json MediaType.MEDIA_TYPE_VIDEO demoVideoCapabilities
      nativeCapabilitiesDocument).1 = .ok () :=
  ⟨(rtcpFeedback_descriptors_distinct MediaType.MEDIA_TYPE_VIDEO demoVideoCapabilities
      nativeCapabilitiesDocument (Or.inr rfl)).1,
   (rtcpFeedback_descriptors_distinct MediaType.MEDIA_TYPE_VIDEO demoVideoCapabilities
      nativeCapabilitiesDocument (Or.inr rfl)).2
      [("codecs", Json.array []), ("headerExtensions", Json.array []),
        ("fecMechanisms", Json.array [])] [] [] rfl rfl rfl
      (by
        intro nativeCodec hmem
        simp [keptCodecs, demoVideoCapabilities, demoVp8Codec, demoRtxCodec] at hmem
        rcases hmem with h | h <;> simp [h])⟩

/-- C24: when the argument checks of Produce pass, the handler's Send returns
and OnProduce returns a document that has no string member `id`, Produce fails
(with the json conversion error, which is not a `mediasoupclient::Exception`),
the transport and so its producer registry are unchanged, and the calls made
are Send and OnProduce only: StopSending is not called and the collaborator
state is the one OnProduce left, with the send state Send opened. -/
theorem produce_response_without_id_fails {W : Type} (env : SendCollaborators W)
    (self : SendTransport) (out : Outside W) (publicListener : Nat) (track : TrackPtr)
    (simulcast : Json) (maxSpatialLayer : Fin 256) (appData : Json)
    (kind : String) (rtpParameters producerRemoteParameters : Json)
    (hchecks : self.produceChecks out.tracks track simulcast maxSpatialLayer = .ok kind)
    (hsend : (env.Send out.world track simulcast).1 = .ok rtpParameters)
    (hanswer : (env.OnProduce (env.Send out.world track simulcast).2
        (producerLocalParameters kind rtpParameters appData)).1
        = .ok producerRemoteParameters)
    (hnoid : ∀ id : String, producerRemoteParameters.find "id" ≠ some (Json.string id)) :
    (∃ what : String,
      (self.Produce env out publicListener track simulcast maxSpatialLayer appData).1
        = .error (.other what)) ∧
    (self.Produce env out publicListener track simulcast maxSpatialLayer appData).2.1
      = self ∧
    (self.Produce env out publicListener track simulcast maxSpatialLayer appData).2.2.calls
      = out.calls ++ [Call.Send track simulcast,
          Call.OnProduce (producerLocalParameters kind rtpParameters appData)] ∧
    (self.Produce env out publicListener track simulcast maxSpatialLayer appData).2.2.world
      = (env.OnProduce (env.Send out.world track simulcast).2
          (producerLocalParameters kind rtpParameters appData)).2 := by
  cases hid : producerRemoteParameters.stringAt "id" with
  | ok id => exact absurd (Json.find_of_stringAt hid) (hnoid id)
  | error e =>
    have hother : ∃ what : String, e = Error.other what := by
      rcases Json.stringAt_error hid with h | h
      · exact ⟨_, h⟩
      · exact ⟨_, h⟩
    obtain ⟨what, hwhat⟩ := hother
    subst hwhat
    refine ⟨⟨what, ?_⟩, ?_, ?_, ?_⟩ <;>
      simp [SendTransport.Produce, hchecks, hsend, hanswer, hid, Outside.after]

/-- Worked instance of C24: signaling answers an empty object. -/
theorem produce_response_without_id_fails_witness :
    (∃ what : String,
      ((demoSendTransport false).Produce
          (constSend (.ok Json.null) (.ok (Json.object [])) (.ok ()))
          demoOutside 0 (some 1) (Json.array []) 0 Json.null).1 = .error (.other what)) ∧
    ((demoSendTransport false).Produce
        (constSend (.ok Json.null) (.ok (Json.object [])) (.ok ()))
        demoOutside 0 (some 1) (Json.array []) 0 Json.null).2.1 = demoSendTransport false ∧
    ((demoSendTransport false).Produce
        (constSend (.ok Json.null) (.ok (Json.object [])) (.ok ()))
        demoOutside 0 (some 1) (Json.array []) 0 Json.null).2.2.calls
      = demoOutside.calls ++ [Call.Send (some 1) (Json.array []),
          Call.OnProduce (producerLocalParameters "audio" Json.null Json.null)] ∧
    ((demoSendTransport false).Produce
        (constSend (.ok Json.null) (.ok (Json.object [])) (.ok ()))
        demoOutside 0 (some 1) (Json.array []) 0 Json.null).2.2.world = () :=
  produce_response_without_id_fails
    (constSend (.ok Json.null) (.ok (Json.object [])) (.ok ()))
    (demoSendTransport false) demoOutside 0 (some 1) (Json.array []) 0 Json.null
    "audio" Json.null (Json.object []) rfl rfl rfl
    (by intro id h; simp [Json.find, Json.lookup] at h)

/-- C25: when the argument checks of Produce pass, the first call is the
handler's Send with the caller's track and the caller's simulcast value, and
the only calls after it are OnProduce, on the document made of the track's
kind, the rtpParameters Send returned and the caller's appData, and
StopSending on the track.  The list the validation loop builds goes nowhere:
whenever the loop runs, that list differs from the value Send is given. -/
theorem produce_sends_caller_simulcast {W : Type} (env : SendCollaborators W)
    (self : SendTransport) (out : Outside W) (publicListener : Nat) (track : TrackPtr)
    (simulcast : Json) (maxSpatialLayer : Fin 256) (appData : Json) (kind : String)
    (hchecks : self.produceChecks out.tracks track simulcast maxSpatialLayer = .ok kind) :
    (∃ rest : List Call,
      (self.Produce env out publicListener track simulcast maxSpatialLayer appData).2.2.calls
        = out.calls ++ Call.Send track simulcast :: rest ∧
      ∀ c ∈ rest,
        (∃ rtpParameters, (env.Send out.world track simulcast).1 = .ok rtpParameters ∧
          c = Call.OnProduce (producerLocalParameters kind rtpParameters appData)) ∨
        c = Call.StopSending track) ∧
    (∀ normalized : List Json, 1 < simulcast.size →
      normalizeSimulcast simulcast.elements [] = .ok normalized →
      Json.array normalized ≠ simulcast) := by
  refine ⟨?_, ?_⟩
  · cases hs : (env.Send out.world track simulcast).1 with
    | error e =>
      refine ⟨[], ?_, ?_⟩ <;> simp [SendTransport.Produce, hchecks, hs, Outside.after]
    | ok rtpParameters =>
      cases ha : (env.OnProduce (env.Send out.world track simulcast).2
          (producerLocalParameters kind rtpParameters appData)).1 with
      | error e =>
        cases e with
        | exception message =>
          cases hst : (env.StopSending (env.OnProduce (env.Send out.world track simulcast).2
              (producerLocalParameters kind rtpParameters appData)).2 track).1 <;>
            refine ⟨[Call.OnProduce (producerLocalParameters kind rtpParameters appData),
              Call.StopSending track], ?_, ?_⟩ <;>
            simp [SendTransport.Produce, hchecks, hs, ha, hst, Outside.after]
        | other what =>
          refine ⟨[Call.OnProduce (producerLocalParameters kind rtpParameters appData)],
            ?_, ?_⟩ <;>
            simp [SendTransport.Produce, hchecks, hs, ha, Outside.after]
      | ok producerRemoteParameters =>
        cases hid : producerRemoteParameters.stringAt "id" <;>
          refine ⟨[Call.OnProduce (producerLocalParameters kind rtpParameters appData)],
            ?_, ?_⟩ <;>
          simp [SendTransport.Produce, hchecks, hs, ha, hid, Outside.after]
  · intro normalized hsize hnorm heq
    subst heq
    simp only [Json.size, Json.elements] at hsize hnorm
    cases normalized with
    | nil => simp at hsize
    | cons entry rest => exact normalizeSimulcast_ne entry rest _ hnorm rfl

/-- Worked instance of C25: a two-entry simulcast array on the video track 2. -/
theorem produce_sends_caller_simulcast_witness :
    ∃ rest : List Call,
      ((demoSendTransport false).Produce echoSend demoOutside 0 (some 2)
          (Json.array [Json.object [("maxBitrate", Json.number 100000)],
            Json.object [("maxBitrate", Json.number 500000)]]) 1 Json.null).2.2.calls
        = demoOutside.calls ++ Call.Send (some 2)
            (Json.array [Json.object [("maxBitrate", Json.number 100000)],
              Json.object [("maxBitrate", Json.number 500000)]]) :: rest ∧
      ∀ c ∈ rest,
        (∃ rtpParameters, (echoSend.Send demoOutside.world (some 2)
            (Json.array [Json.object [("maxBitrate", Json.number 100000)],
              Json.object [("maxBitrate", Json.number 500000)]])).1 = .ok rtpParameters ∧
          c = Call.OnProduce (producerLocalParameters "video" rtpParameters Json.null)) ∨
        c = Call.StopSending (some 2) :=
  (produce_sends_caller_simulcast echoSend (demoSendTransport false) demoOutside 0 (some 2)
    (Json.array [Json.object [("maxBitrate", Json.number 100000)],
      Json.object [("maxBitrate", Json.number 500000)]]) 1 Json.null "video" rfl).1

/-- C26: when the argument checks of Produce pass, Send returns, and OnProduce
answers an id under which a Producer is already registered, Produce does not
fail: it returns a new Producer with that id, the registry maps the id to the
new Producer, the registry has as many entries as before, and the calls made
are Send and OnProduce only, so StopSending is not called for the Producer
that was registered. -/
theorem produce_reused_id_overwrites {W : Type} (env : SendCollaborators W)
    (self : SendTransport) (out : Outside W) (publicListener : Nat) (track : TrackPtr)
    (simulcast : Json) (maxSpatialLayer : Fin 256) (appData : Json)
    (kind : String) (rtpParameters producerRemoteParameters : Json)
    (id : String) (registered : Producer)
    (hchecks : self.produceChecks out.tracks track simulcast maxSpatialLayer = .ok kind)
    (hsend : (env.Send out.world track simulcast).1 = .ok rtpParameters)
    (hanswer : (env.OnProduce (env.Send out.world track simulcast).2
        (producerLocalParameters kind rtpParameters appData)).1
        = .ok producerRemoteParameters)
    (hid : producerRemoteParameters.find "id" = some (Json.string id))
    (hregistered : self.producers.find id = some registered) :
    (self.Produce env out publicListener track simulcast maxSpatialLayer appData).1
      = .ok (Producer.mk publicListener id track rtpParameters maxSpatialLayer appData) ∧
    (self.Produce env out publicListener track simulcast maxSpatialLayer appData).2.1.producers.find
        id
      = some (Producer.mk publicListener id track rtpParameters maxSpatialLayer appData) ∧
    (self.Produce env out publicListener track simulcast maxSpatialLayer appData).2.1.producers.size
      = self.producers.size ∧
    (self.Produce env out publicListener track simulcast maxSpatialLayer appData).2.2.calls
      = out.calls ++ [Call.Send track simulcast,
          Call.OnProduce (producerLocalParameters kind rtpParameters appData)] := by
  have hs := Json.stringAt_of_find hid
  refine ⟨?_, ?_, ?_, ?_⟩
  · simp [SendTransport.Produce, hchecks, hsend, hanswer, hs, Outside.after]
  · simp only [SendTransport.Produce, hchecks, hsend, hanswer, hs, Outside.after]
    exact Registry.find_assign_self _ _ _
  · simp only [SendTransport.Produce, hchecks, hsend, hanswer, hs, Outside.after]
    exact Registry.size_assign_of_find _ _ _ registered hregistered
  · simp [SendTransport.Produce, hchecks, hsend, hanswer, hs, Outside.after]

/-- Worked instance of C26: the transport has "p1" registered on track 1 and
signaling answers "p1" again for the video track 2. -/
theorem produce_reused_id_overwrites_witness :
    (demoSendTransportWithProducer.Produce echoSend demoOutside 9 (some 2) (Json.array []) 0
        Json.null).1
      = .ok (Producer.mk 9 "p1" (some 2) (Json.object [("encodings", Json.array [])]) 0
          Json.null) ∧
    (demoSendTransportWithProducer.Produce echoSend demoOutside 9 (some 2) (Json.array []) 0
        Json.null).2.1.producers.find "p1"
      = some (Producer.mk 9 "p1" (some 2) (Json.object [("encodings", Json.array [])]) 0
          Json.null) ∧
    (demoSendTransportWithProducer.Produce echoSend demoOutside 9 (some 2) (Json.array []) 0
        Json.null).2.1.producers.size
      = demoSendTransportWithProducer.producers.size ∧
    (demoSendTransportWithProducer.Produce echoSend demoOutside 9 (some 2) (Json.array []) 0
        Json.null).2.2.calls
      = demoOutside.calls ++ [Call.Send (some 2) (Json.array []),
          Call.OnProduce (producerLocalParameters "video"
            (Json.object [("encodings", Json.array [])]) Json.null)] :=
  produce_reused_id_overwrites echoSend demoSendTransportWithProducer demoOutside 9 (some 2)
    (Json.array []) 0 Json.null "video" (Json.object [("encodings", Json.array [])])
    (Json.object [("id", Json.string "p1")]) "p1" demoProducer rfl rfl rfl rfl rfl

end mediasoupclient
